import Mathlib

/-!
# BufferUtils (CloudScapes): a shallow embedding

The C++ file `src/CloudScapes/BufferUtils.cpp` is a fixed sequence of calls into the
graphics API and into a GPU allocator library.  The embedding below passes an explicit
device state (`World`) through every call.  The state holds the live buffers, the live
allocations with their bytes, the buffer/allocation bindings, the command buffers being
recorded and a trace of every call made.  What the driver answers (result codes, memory
requirements, memory type indices) is a parameter (`Driver`), so that theorems range
over every driver.

Conventions:

* Exceptions (`throw std::runtime_error`) are `Except.error`; the state reached when the
  exception is raised is returned next to it, so that what is still live can be
  inspected.
* Handles, sizes and flag words are natural numbers.  Where a C++ call narrows an
  argument (a 64-bit `VkDeviceSize` passed to a 32-bit parameter) the conversion
  `toUint32` is written at the call; the `size_t` products are taken with `toUint64`.
* A buffer shows `size` bytes of the allocation bound to it.  A store or a copy that
  reaches outside a buffer or an allocation has no defined effect in the API; in the
  model the part that lies inside is carried out and the rest is dropped.
* The single-time command helper and the guard `ERR_GUARD_VULKAN` are defined outside
  the file and are modelled from the specification; the memory type resolver and
  `sizeof(Vertex)` are parameters.
-/

namespace BufferUtils

/-! ## Constants of the graphics API and of the allocator library -/

def VK_STRUCTURE_TYPE_MEMORY_ALLOCATE_INFO : Nat := 5
def VK_STRUCTURE_TYPE_BUFFER_CREATE_INFO : Nat := 12
def VK_SHARING_MODE_EXCLUSIVE : Nat := 0
def VK_BUFFER_USAGE_TRANSFER_SRC_BIT : Nat := 0x1
def VK_BUFFER_USAGE_TRANSFER_DST_BIT : Nat := 0x2
def VK_BUFFER_USAGE_INDEX_BUFFER_BIT : Nat := 0x40
def VK_BUFFER_USAGE_VERTEX_BUFFER_BIT : Nat := 0x80
def VK_MEMORY_PROPERTY_DEVICE_LOCAL_BIT : Nat := 0x1
def VK_MEMORY_PROPERTY_HOST_VISIBLE_BIT : Nat := 0x2
def VK_MEMORY_PROPERTY_HOST_COHERENT_BIT : Nat := 0x4
def VMA_MEMORY_USAGE_GPU_ONLY : Nat := 1
def VMA_MEMORY_USAGE_CPU_ONLY : Nat := 2
def VMA_ALLOCATION_CREATE_MAPPED_BIT : Nat := 0x4
def VK_NULL_HANDLE : Nat := 0

/-- Conversion of an integer to `uint32_t` (`VkBufferUsageFlags`, `VkFlags`, `uint32_t`). -/
def toUint32 (n : Nat) : Nat := n % 2 ^ 32

/-- Conversion of an integer to a 64-bit unsigned (`VkDeviceSize`, `size_t`). -/
def toUint64 (n : Nat) : Nat := n % 2 ^ 64

/-- Result codes of the graphics API. -/
inductive VkResult where
  | VK_SUCCESS
  | VK_ERROR_OUT_OF_HOST_MEMORY
  | VK_ERROR_OUT_OF_DEVICE_MEMORY
  | VK_ERROR_MEMORY_MAP_FAILED
  deriving DecidableEq, Repr

/-- What the C++ code raises. -/
inductive Error where
  | runtime_error (what : String)
  | ERR_GUARD_VULKAN (result : VkResult)
  deriving DecidableEq, Repr

/-! ## Data model -/

structure VkBufferCreateInfo where
  sType : Nat
  size : Nat
  usage : Nat
  sharingMode : Nat
  deriving DecidableEq, Repr

structure VkMemoryRequirements where
  size : Nat
  alignment : Nat
  memoryTypeBits : Nat
  deriving DecidableEq, Repr

structure VkMemoryAllocateInfo where
  sType : Nat
  allocationSize : Nat
  memoryTypeIndex : Nat
  deriving DecidableEq, Repr

structure VkBufferCopy where
  srcOffset : Nat
  dstOffset : Nat
  size : Nat
  deriving DecidableEq, Repr

structure VmaAllocationCreateInfo where
  flags : Nat
  usage : Nat
  deriving DecidableEq, Repr

/-- A live `VkBuffer`. -/
structure BufferObject where
  handle : Nat
  createInfo : VkBufferCreateInfo
  deriving DecidableEq, Repr

/-- A live allocation: a `VkDeviceMemory`, or a `VmaAllocation` (then `vma` holds the
allocation intent it was created with).  `bytes` is its storage. -/
structure MemoryObject where
  handle : Nat
  allocateInfo : VkMemoryAllocateInfo
  bytes : List Nat
  vma : Option VmaAllocationCreateInfo
  deriving DecidableEq, Repr

/-- The allocation `memory` is bound to the buffer `buffer` at `memoryOffset`. -/
structure Binding where
  buffer : Nat
  memory : Nat
  memoryOffset : Nat
  deriving DecidableEq, Repr

/-- One recorded `vkCmdCopyBuffer`. -/
structure CopyCommand where
  srcBuffer : Nat
  dstBuffer : Nat
  regions : List VkBufferCopy
  deriving DecidableEq, Repr

/-- A command buffer in the recording state. -/
structure CommandBufferObject where
  handle : Nat
  commands : List CopyCommand
  deriving DecidableEq, Repr

/-- A host pointer into a mapped allocation: allocation handle and byte offset.
`none` is a pointer that was never set. -/
abbrev HostPtr := Option (Nat × Nat)

/-- One entry of the call trace. -/
inductive Call where
  | vkCreateBuffer (pCreateInfo : VkBufferCreateInfo) (result : VkResult) (buffer : Nat)
  | vkGetBufferMemoryRequirements (buffer : Nat) (req : VkMemoryRequirements)
  | GetMemoryTypeIndex (types : Nat) (properties : Nat) (index : Nat)
  | vkAllocateMemory (pAllocateInfo : VkMemoryAllocateInfo) (result : VkResult) (memory : Nat)
  | vkBindBufferMemory (buffer : Nat) (memory : Nat) (memoryOffset : Nat) (result : VkResult)
  | vkMapMemory (memory : Nat) (offset : Nat) (size : Nat) (flags : Nat) (result : VkResult)
  | memcpy (dst : HostPtr) (src : List Nat) (n : Nat)
  | vkUnmapMemory (memory : Nat)
  | vkDestroyBuffer (buffer : Nat)
  | vkFreeMemory (memory : Nat)
  | beginSingleTimeCommands (commandPool : Nat) (commandBuffer : Nat)
  | vkCmdCopyBuffer (commandBuffer : Nat) (srcBuffer : Nat) (dstBuffer : Nat)
      (regions : List VkBufferCopy)
  | endSingleTimeCommands (commandPool : Nat) (commandBuffer : Nat)
  | vmaCreateBuffer (pBufferCreateInfo : VkBufferCreateInfo)
      (pAllocationCreateInfo : VmaAllocationCreateInfo) (result : VkResult) (buffer : Nat)
      (allocation : Nat)
  | vmaDestroyBuffer (buffer : Nat) (allocation : Nat)
  deriving DecidableEq, Repr

/-- The device state. -/
structure World where
  buffers : List BufferObject
  memories : List MemoryObject
  bindings : List Binding
  commandBuffers : List CommandBufferObject
  trace : List Call
  deriving DecidableEq, Repr

/-- What the driver, the instance and the allocator library answer.  The result codes may
depend on the whole state at the time of the call. -/
structure Driver where
  createBufferResult : World → VkBufferCreateInfo → VkResult
  memoryRequirements : VkBufferCreateInfo → VkMemoryRequirements
  GetMemoryTypeIndex : Nat → Nat → Nat
  memoryTypeFlags : Nat → Nat
  allocateMemoryResult : World → VkMemoryAllocateInfo → VkResult
  bindBufferMemoryResult : World → Nat → Nat → Nat → VkResult
  mapMemoryResult : World → Nat → Nat → Nat → VkResult
  vmaCreateBufferResult : World → VkBufferCreateInfo → VmaAllocationCreateInfo → VkResult
  vmaMemoryTypeIndex : VkMemoryRequirements → VmaAllocationCreateInfo → Nat

/-! ## Handles and storage -/

/-- Every handle the state mentions. -/
def World.handles (w : World) : List Nat :=
  w.buffers.map (fun b => b.handle) ++ w.memories.map (fun m => m.handle)
    ++ w.bindings.map (fun b => b.buffer) ++ w.bindings.map (fun b => b.memory)
    ++ w.commandBuffers.map (fun c => c.handle)

/-- The handle given to the next object created: above every handle in the state, and so
never `VK_NULL_HANDLE`. -/
def World.freshHandle (w : World) : Nat := w.handles.foldr max 0 + 1

def World.log (w : World) (c : Call) : World := { w with trace := w.trace ++ [c] }

def World.findBuffer (w : World) (buffer : Nat) : Option BufferObject :=
  w.buffers.find? (fun b => b.handle == buffer)

def World.findMemory (w : World) (memory : Nat) : Option MemoryObject :=
  w.memories.find? (fun m => m.handle == memory)

def World.findBinding (w : World) (buffer : Nat) : Option Binding :=
  w.bindings.find? (fun b => b.buffer == buffer)

/-- Overwrite `bytes` from `offset` on with `src`; the part of `src` that does not fit in
`bytes` is dropped (an access outside the storage has no defined effect in the API). -/
def writeAt (bytes : List Nat) (offset : Nat) (src : List Nat) : List Nat :=
  bytes.take offset ++ src.take (bytes.length - offset)
    ++ bytes.drop (offset + min src.length (bytes.length - offset))

/-- Store into the allocation `memory` from `offset` on. -/
def World.writeMemory (w : World) (memory : Nat) (offset : Nat) (src : List Nat) : World :=
  { w with memories := w.memories.map (fun m =>
      if m.handle = memory then { m with bytes := writeAt m.bytes offset src } else m) }

/-- The bytes seen through a buffer: `createInfo.size` bytes of the allocation bound to
it, from the binding offset on.  A buffer that is not live, or has no live allocation
bound, shows no bytes. -/
def World.bufferBytes (w : World) (buffer : Nat) : List Nat :=
  match w.findBuffer buffer, w.findBinding buffer with
  | some b, some bd =>
    match w.findMemory bd.memory with
    | some m => (m.bytes.drop bd.memoryOffset).take b.createInfo.size
    | none => []
  | _, _ => []

/-- Store through a buffer from `offset` on; what falls outside the buffer is dropped. -/
def World.writeBuffer (w : World) (buffer : Nat) (offset : Nat) (src : List Nat) : World :=
  match w.findBinding buffer with
  | some bd =>
    w.writeMemory bd.memory (bd.memoryOffset + offset)
      (src.take ((w.bufferBytes buffer).length - offset))
  | none => w

/-! ## The graphics API

Each function appends its call to the trace.  Handles given out are `World.freshHandle`.
New allocations are zero-filled. -/

def vkCreateBuffer (drv : Driver) (w : World) (pCreateInfo : VkBufferCreateInfo) :
    VkResult × Nat × World :=
  let result := drv.createBufferResult w pCreateInfo
  if result = VkResult.VK_SUCCESS then
    let buffer := w.freshHandle
    (result, buffer,
      { w with buffers := w.buffers ++ [⟨buffer, pCreateInfo⟩],
               trace := w.trace ++ [Call.vkCreateBuffer pCreateInfo result buffer] })
  else
    (result, VK_NULL_HANDLE, w.log (Call.vkCreateBuffer pCreateInfo result VK_NULL_HANDLE))

def vkGetBufferMemoryRequirements (drv : Driver) (w : World) (buffer : Nat) :
    VkMemoryRequirements × World :=
  let req : VkMemoryRequirements :=
    match w.findBuffer buffer with
    | some b => drv.memoryRequirements b.createInfo
    | none => ⟨0, 0, 0⟩
  (req, w.log (Call.vkGetBufferMemoryRequirements buffer req))

/-- The call `device->GetInstance()->GetMemoryTypeIndex(types, properties)`; the resolver
itself is the parameter `Driver.GetMemoryTypeIndex`. -/
def GetMemoryTypeIndex (drv : Driver) (w : World) (types : Nat) (properties : Nat) :
    Nat × World :=
  let index := drv.GetMemoryTypeIndex types properties
  (index, w.log (Call.GetMemoryTypeIndex types properties index))

def vkAllocateMemory (drv : Driver) (w : World) (pAllocateInfo : VkMemoryAllocateInfo) :
    VkResult × Nat × World :=
  let result := drv.allocateMemoryResult w pAllocateInfo
  if result = VkResult.VK_SUCCESS then
    let memory := w.freshHandle
    (result, memory,
      { w with memories := w.memories ++
                 [⟨memory, pAllocateInfo, List.replicate pAllocateInfo.allocationSize 0, none⟩],
               trace := w.trace ++ [Call.vkAllocateMemory pAllocateInfo result memory] })
  else
    (result, VK_NULL_HANDLE, w.log (Call.vkAllocateMemory pAllocateInfo result VK_NULL_HANDLE))

def vkBindBufferMemory (drv : Driver) (w : World) (buffer : Nat) (memory : Nat)
    (memoryOffset : Nat) : VkResult × World :=
  let result := drv.bindBufferMemoryResult w buffer memory memoryOffset
  if result = VkResult.VK_SUCCESS then
    (result,
      { w with bindings := w.bindings ++ [⟨buffer, memory, memoryOffset⟩],
               trace := w.trace ++ [Call.vkBindBufferMemory buffer memory memoryOffset result] })
  else
    (result, w.log (Call.vkBindBufferMemory buffer memory memoryOffset result))

/-- On success the pointer written to `ppData` addresses the allocation at `offset`; on
failure `ppData` is not written. -/
def vkMapMemory (drv : Driver) (w : World) (memory : Nat) (offset : Nat) (size : Nat)
    (flags : Nat) : VkResult × HostPtr × World :=
  let result := drv.mapMemoryResult w memory offset size
  let w1 := w.log (Call.vkMapMemory memory offset size flags result)
  if result = VkResult.VK_SUCCESS then (result, some (memory, offset), w1)
  else (result, none, w1)

/-- The call `memcpy(dst, src, n)` into mapped storage: the first `n` bytes at `src`. -/
def memcpy (w : World) (dst : HostPtr) (src : List Nat) (n : Nat) : World :=
  match dst with
  | some (memory, offset) =>
    (w.writeMemory memory offset (src.take n)).log (Call.memcpy dst src n)
  | none => w.log (Call.memcpy dst src n)

def vkUnmapMemory (w : World) (memory : Nat) : World :=
  w.log (Call.vkUnmapMemory memory)

def vkDestroyBuffer (w : World) (buffer : Nat) : World :=
  { w with buffers := w.buffers.filter (fun b => b.handle != buffer),
           bindings := w.bindings.filter (fun b => b.buffer != buffer),
           trace := w.trace ++ [Call.vkDestroyBuffer buffer] }

def vkFreeMemory (w : World) (memory : Nat) : World :=
  { w with memories := w.memories.filter (fun m => m.handle != memory),
           bindings := w.bindings.filter (fun b => b.memory != memory),
           trace := w.trace ++ [Call.vkFreeMemory memory] }

def vkCmdCopyBuffer (w : World) (commandBuffer : Nat) (srcBuffer : Nat) (dstBuffer : Nat)
    (regions : List VkBufferCopy) : World :=
  { w with commandBuffers := w.commandBuffers.map (fun c =>
             if c.handle = commandBuffer then
               { c with commands := c.commands ++ [⟨srcBuffer, dstBuffer, regions⟩] }
             else c),
           trace := w.trace ++ [Call.vkCmdCopyBuffer commandBuffer srcBuffer dstBuffer regions] }

/-- The device runs one copy region: `size` bytes of the source buffer from `srcOffset`
go to the destination buffer from `dstOffset`. -/
def World.copyRegion (w : World) (srcBuffer : Nat) (dstBuffer : Nat) (r : VkBufferCopy) :
    World :=
  w.writeBuffer dstBuffer r.dstOffset (((w.bufferBytes srcBuffer).drop r.srcOffset).take r.size)

/-- The device runs one recorded copy command, region by region. -/
def World.execute (w : World) (c : CopyCommand) : World :=
  c.regions.foldl (fun w1 r => w1.copyRegion c.srcBuffer c.dstBuffer r) w

/-- Modelled from the spec: `beginSingleTimeCommands(device, pool)` is defined outside
this file; it allocates a one-shot command buffer and begins recording. -/
def beginSingleTimeCommands (w : World) (commandPool : Nat) : Nat × World :=
  let commandBuffer := w.freshHandle
  (commandBuffer,
    { w with commandBuffers := w.commandBuffers ++ [⟨commandBuffer, []⟩],
             trace := w.trace ++ [Call.beginSingleTimeCommands commandPool commandBuffer] })

/-- Modelled from the spec: `endSingleTimeCommands(device, pool, buffer)` is defined
outside this file; it submits the command buffer, waits for completion (the recorded
commands have run, in order, when it returns) and frees the command buffer. -/
def endSingleTimeCommands (w : World) (commandPool : Nat) (commandBuffer : Nat) : World :=
  let commands : List CopyCommand :=
    match w.commandBuffers.find? (fun c => c.handle == commandBuffer) with
    | some c => c.commands
    | none => []
  let w1 := commands.foldl World.execute w
  { w1 with commandBuffers := w1.commandBuffers.filter (fun c => c.handle != commandBuffer),
            trace := w1.trace ++ [Call.endSingleTimeCommands commandPool commandBuffer] }

/-! ## The allocator library -/

/-- The call `vmaCreateBuffer`: on success a buffer and a dedicated allocation of the
required size, bound at offset 0; the returned pointer is `pMappedData`, set when the
allocation was asked for with `VMA_ALLOCATION_CREATE_MAPPED_BIT`. -/
def vmaCreateBuffer (drv : Driver) (w : World) (pBufferCreateInfo : VkBufferCreateInfo)
    (pAllocationCreateInfo : VmaAllocationCreateInfo) :
    VkResult × Nat × Nat × HostPtr × World :=
  let result := drv.vmaCreateBufferResult w pBufferCreateInfo pAllocationCreateInfo
  if result = VkResult.VK_SUCCESS then
    let buffer := w.freshHandle
    let allocation := w.freshHandle + 1
    let req := drv.memoryRequirements pBufferCreateInfo
    let allocateInfo : VkMemoryAllocateInfo :=
      ⟨VK_STRUCTURE_TYPE_MEMORY_ALLOCATE_INFO, req.size,
        drv.vmaMemoryTypeIndex req pAllocationCreateInfo⟩
    let pMappedData : HostPtr :=
      if pAllocationCreateInfo.flags &&& VMA_ALLOCATION_CREATE_MAPPED_BIT ≠ 0 then
        some (allocation, 0)
      else none
    (result, buffer, allocation, pMappedData,
      { w with buffers := w.buffers ++ [⟨buffer, pBufferCreateInfo⟩],
               memories := w.memories ++
                 [⟨allocation, allocateInfo, List.replicate req.size 0,
                   some pAllocationCreateInfo⟩],
               bindings := w.bindings ++ [⟨buffer, allocation, 0⟩],
               trace := w.trace ++ [Call.vmaCreateBuffer pBufferCreateInfo
                 pAllocationCreateInfo result buffer allocation] })
  else
    (result, VK_NULL_HANDLE, VK_NULL_HANDLE, none,
      w.log (Call.vmaCreateBuffer pBufferCreateInfo pAllocationCreateInfo result
        VK_NULL_HANDLE VK_NULL_HANDLE))

def vmaDestroyBuffer (w : World) (buffer : Nat) (allocation : Nat) : World :=
  { w with buffers := w.buffers.filter (fun b => b.handle != buffer),
           memories := w.memories.filter (fun m => m.handle != allocation),
           bindings := w.bindings.filter
             (fun b => b.buffer != buffer && b.memory != allocation),
           trace := w.trace ++ [Call.vmaDestroyBuffer buffer allocation] }

/-- Modelled from the spec: the guard `ERR_GUARD_VULKAN(expr)` is defined outside this
file; it raises when the result is not success. -/
def ERR_GUARD_VULKAN (result : VkResult) : Except Error Unit :=
  if result ≠ VkResult.VK_SUCCESS then Except.error (Error.ERR_GUARD_VULKAN result)
  else Except.ok ()

/-! ## The functions of `BufferUtils.cpp`

The `device` argument is the `World`; output parameters are returned.  A narrowing
conversion that the C++ call performs is written where the call is made. -/

/-- Embeds `BufferUtils::CreateBuffer(device, allowedUsage, size, properties, buffer,
bufferMemory)`; returns `(buffer, bufferMemory)`. -/
def CreateBuffer (drv : Driver) (w : World) (allowedUsage : Nat) (size : Nat)
    (properties : Nat) : Except Error (Nat × Nat) × World :=
  let bufferCreateInfo : VkBufferCreateInfo :=
    { sType := VK_STRUCTURE_TYPE_BUFFER_CREATE_INFO, size := size, usage := allowedUsage,
      sharingMode := VK_SHARING_MODE_EXCLUSIVE }
  match vkCreateBuffer drv w bufferCreateInfo with
  | (r1, buffer, w1) =>
    if r1 ≠ VkResult.VK_SUCCESS then
      (Except.error (Error.runtime_error "Failed to create buffer"), w1)
    else
      match vkGetBufferMemoryRequirements drv w1 buffer with
      | (memRequirements, w2) =>
        match GetMemoryTypeIndex drv w2 memRequirements.memoryTypeBits properties with
        | (memoryTypeIndex, w3) =>
          let allocInfo : VkMemoryAllocateInfo :=
            { sType := VK_STRUCTURE_TYPE_MEMORY_ALLOCATE_INFO,
              allocationSize := memRequirements.size, memoryTypeIndex := memoryTypeIndex }
          match vkAllocateMemory drv w3 allocInfo with
          | (r2, bufferMemory, w4) =>
            if r2 ≠ VkResult.VK_SUCCESS then
              (Except.error
                (Error.runtime_error "Failed to allocate device memory for the buffer"), w4)
            else
              -- the result of vkBindBufferMemory is not looked at
              match vkBindBufferMemory drv w4 buffer bufferMemory 0 with
              | (_, w5) => (Except.ok (buffer, bufferMemory), w5)

/-- Embeds `BufferUtils::CopyBuffer(device, commandPool, srcBuffer, dstBuffer, size)`. -/
def CopyBuffer (w : World) (commandPool : Nat) (srcBuffer : Nat) (dstBuffer : Nat)
    (size : Nat) : World :=
  match beginSingleTimeCommands w commandPool with
  | (commandBuffer, w1) =>
    let copyRegion : VkBufferCopy := { srcOffset := 0, dstOffset := 0, size := size }
    let w2 := vkCmdCopyBuffer w1 commandBuffer srcBuffer dstBuffer [copyRegion]
    endSingleTimeCommands w2 commandPool commandBuffer

/-- Embeds `BufferUtils::CreateBufferFromData(device, commandPool, bufferData, bufferSize,
bufferUsage, buffer, bufferMemory)`; returns `(buffer, bufferMemory)`.  `bufferData` is
the bytes at the pointer.  Both calls of `CreateBuffer` pass `bufferSize` (64 bits) in
second place, where `CreateBuffer` has its 32-bit `allowedUsage`, and the usage flags in
third place, where it has its 32-bit `size`. -/
def CreateBufferFromData (drv : Driver) (w : World) (commandPool : Nat)
    (bufferData : List Nat) (bufferSize : Nat) (bufferUsage : Nat) :
    Except Error (Nat × Nat) × World :=
  let stagingUsage := VK_BUFFER_USAGE_TRANSFER_SRC_BIT
  let stagingProperties :=
    VK_MEMORY_PROPERTY_HOST_VISIBLE_BIT ||| VK_MEMORY_PROPERTY_HOST_COHERENT_BIT
  match CreateBuffer drv w (toUint32 bufferSize) stagingUsage stagingProperties with
  | (Except.error e, w1) => (Except.error e, w1)
  | (Except.ok (stagingBuffer, stagingBufferMemory), w1) =>
    -- the result of vkMapMemory is not looked at
    match vkMapMemory drv w1 stagingBufferMemory 0 bufferSize 0 with
    | (_, data, w2) =>
      let w3 := memcpy w2 data bufferData bufferSize
      let w4 := vkUnmapMemory w3 stagingBufferMemory
      let usage := VK_BUFFER_USAGE_TRANSFER_DST_BIT ||| bufferUsage
      let flags := VK_MEMORY_PROPERTY_DEVICE_LOCAL_BIT
      match CreateBuffer drv w4 (toUint32 bufferSize) usage flags with
      | (Except.error e, w5) => (Except.error e, w5)
      | (Except.ok (buffer, bufferMemory), w5) =>
        let w6 := CopyBuffer w5 commandPool stagingBuffer buffer bufferSize
        let w7 := vkDestroyBuffer w6 stagingBuffer
        let w8 := vkFreeMemory w7 stagingBufferMemory
        (Except.ok (buffer, bufferMemory), w8)

/-- Embeds `BufferUtils::CreateDeviceMemory(device, size, types, propertyFlags)`. -/
def CreateDeviceMemory (drv : Driver) (w : World) (size : Nat) (types : Nat)
    (propertyFlags : Nat) : Except Error Nat × World :=
  match GetMemoryTypeIndex drv w types propertyFlags with
  | (memoryTypeIndex, w1) =>
    let memoryAllocateInfo : VkMemoryAllocateInfo :=
      { sType := VK_STRUCTURE_TYPE_MEMORY_ALLOCATE_INFO, allocationSize := size,
        memoryTypeIndex := memoryTypeIndex }
    match vkAllocateMemory drv w1 memoryAllocateInfo with
    | (r, deviceMemory, w2) =>
      if r ≠ VkResult.VK_SUCCESS then
        (Except.error (Error.runtime_error "failed to allocate device memory!"), w2)
      else (Except.ok deviceMemory, w2)

/-- Embeds `BufferUtils::createBufferVMA(g_vma_Allocator, allowedUsage, size, buffer,
g_vma_BufferAlloc)`; returns `(buffer, g_vma_BufferAlloc)`. -/
def createBufferVMA (drv : Driver) (w : World) (allowedUsage : Nat) (size : Nat) :
    Except Error (Nat × Nat) × World :=
  let vbInfo : VkBufferCreateInfo :=
    { sType := VK_STRUCTURE_TYPE_BUFFER_CREATE_INFO, size := size, usage := allowedUsage,
      sharingMode := VK_SHARING_MODE_EXCLUSIVE }
  let vbAllocCreateInfo : VmaAllocationCreateInfo :=
    { usage := VMA_MEMORY_USAGE_GPU_ONLY, flags := 0 }
  match vmaCreateBuffer drv w vbInfo vbAllocCreateInfo with
  | (r, buffer, g_vma_BufferAlloc, _, w1) =>
    match ERR_GUARD_VULKAN r with
    | Except.error e => (Except.error e, w1)
    | Except.ok _ => (Except.ok (buffer, g_vma_BufferAlloc), w1)

/-- The bytes of a `uint32_t` in memory (little-endian host). -/
def uint32Bytes (i : Nat) : List Nat :=
  [i % 256, i / 256 % 256, i / 65536 % 256, i / 16777216 % 256]

/-- Embeds `BufferUtils::createVertexandIndexBuffersVMA(device, commandPool,
g_vma_Allocator, vertices, indices, vertexBuffer, indexBuffer, g_vma_VertexBufferAlloc,
g_vma_IndexBufferAlloc)`; returns `(vertexBuffer, indexBuffer, g_vma_VertexBufferAlloc,
g_vma_IndexBufferAlloc)`.  The type `Vertex` is declared outside this file: its size
`sizeofVertex` is a parameter and a vertex is given by the bytes of its object. -/
def createVertexandIndexBuffersVMA (drv : Driver) (w : World) (commandPool : Nat)
    (sizeofVertex : Nat) (vertices : List (List Nat)) (indices : List Nat) :
    Except Error (Nat × Nat × Nat × Nat) × World :=
  -- Vertex Buffer
  let vbSize := toUint64 (vertices.length * sizeofVertex)
  let vbInfo : VkBufferCreateInfo :=
    { sType := VK_STRUCTURE_TYPE_BUFFER_CREATE_INFO, size := vbSize,
      usage := VK_BUFFER_USAGE_TRANSFER_SRC_BIT, sharingMode := VK_SHARING_MODE_EXCLUSIVE }
  let vbAllocCreateInfo : VmaAllocationCreateInfo :=
    { usage := VMA_MEMORY_USAGE_CPU_ONLY, flags := VMA_ALLOCATION_CREATE_MAPPED_BIT }
  match vmaCreateBuffer drv w vbInfo vbAllocCreateInfo with
  | (r1, stagingVertexBuffer, stagingVertexBufferAlloc, pMappedData1, w1) =>
    match ERR_GUARD_VULKAN r1 with
    | Except.error e => (Except.error e, w1)
    | Except.ok _ =>
      let w2 := memcpy w1 pMappedData1 vertices.flatten vbSize
      let vbInfo2 : VkBufferCreateInfo :=
        { vbInfo with
          usage := VK_BUFFER_USAGE_TRANSFER_DST_BIT ||| VK_BUFFER_USAGE_VERTEX_BUFFER_BIT }
      let vbAllocCreateInfo2 : VmaAllocationCreateInfo :=
        { usage := VMA_MEMORY_USAGE_GPU_ONLY, flags := 0 }
      match vmaCreateBuffer drv w2 vbInfo2 vbAllocCreateInfo2 with
      | (r2, vertexBuffer, g_vma_VertexBufferAlloc, _, w3) =>
        match ERR_GUARD_VULKAN r2 with
        | Except.error e => (Except.error e, w3)
        | Except.ok _ =>
          -- Index Buffer
          let ibSize := toUint64 (indices.length * 4)
          let ibInfo : VkBufferCreateInfo :=
            { sType := VK_STRUCTURE_TYPE_BUFFER_CREATE_INFO, size := ibSize,
              usage := VK_BUFFER_USAGE_TRANSFER_SRC_BIT,
              sharingMode := VK_SHARING_MODE_EXCLUSIVE }
          let ibAllocCreateInfo : VmaAllocationCreateInfo :=
            { usage := VMA_MEMORY_USAGE_CPU_ONLY, flags := VMA_ALLOCATION_CREATE_MAPPED_BIT }
          match vmaCreateBuffer drv w3 ibInfo ibAllocCreateInfo with
          | (r3, stagingIndexBuffer, stagingIndexBufferAlloc, pMappedData3, w4) =>
            match ERR_GUARD_VULKAN r3 with
            | Except.error e => (Except.error e, w4)
            | Except.ok _ =>
              let w5 := memcpy w4 pMappedData3 (indices.map uint32Bytes).flatten ibSize
              let ibInfo2 : VkBufferCreateInfo :=
                { ibInfo with
                  usage := VK_BUFFER_USAGE_TRANSFER_DST_BIT |||
                    VK_BUFFER_USAGE_VERTEX_BUFFER_BIT }
              let ibAllocCreateInfo2 : VmaAllocationCreateInfo :=
                { usage := VMA_MEMORY_USAGE_GPU_ONLY, flags := 0 }
              match vmaCreateBuffer drv w5 ibInfo2 ibAllocCreateInfo2 with
              | (r4, indexBuffer, g_vma_IndexBufferAlloc, _, w6) =>
                match ERR_GUARD_VULKAN r4 with
                | Except.error e => (Except.error e, w6)
                | Except.ok _ =>
                  -- Copy buffers
                  match beginSingleTimeCommands w6 commandPool with
                  | (commandBuffer, w7) =>
                    let vbCopyRegion : VkBufferCopy :=
                      { srcOffset := 0, dstOffset := 0, size := vbInfo2.size }
                    let w8 := vkCmdCopyBuffer w7 commandBuffer stagingVertexBuffer
                      vertexBuffer [vbCopyRegion]
                    let ibCopyRegion : VkBufferCopy :=
                      { srcOffset := 0, dstOffset := 0, size := ibInfo2.size }
                    let w9 := vkCmdCopyBuffer w8 commandBuffer stagingIndexBuffer
                      indexBuffer [ibCopyRegion]
                    let w10 := endSingleTimeCommands w9 commandPool commandBuffer
                    let w11 := vmaDestroyBuffer w10 stagingIndexBuffer stagingIndexBufferAlloc
                    let w12 := vmaDestroyBuffer w11 stagingVertexBuffer
                      stagingVertexBufferAlloc
                    (Except.ok (vertexBuffer, indexBuffer, g_vma_VertexBufferAlloc,
                      g_vma_IndexBufferAlloc), w12)

/-- Embeds `BufferUtils::createBufferFromDataVMA(device, commandPool, g_vma_Allocator,
bufferData, bufferSize, bufferUsage, buffer, g_vma_BufferAlloc)`; returns
`(buffer, g_vma_BufferAlloc)`. -/
def createBufferFromDataVMA (drv : Driver) (w : World) (commandPool : Nat)
    (bufferData : List Nat) (bufferSize : Nat) (bufferUsage : Nat) :
    Except Error (Nat × Nat) × World :=
  -- Staging Buffer
  let stagingBufferInfo : VkBufferCreateInfo :=
    { sType := VK_STRUCTURE_TYPE_BUFFER_CREATE_INFO, size := bufferSize,
      usage := VK_BUFFER_USAGE_TRANSFER_SRC_BIT, sharingMode := VK_SHARING_MODE_EXCLUSIVE }
  let stagingBufferAllocCreateInfo : VmaAllocationCreateInfo :=
    { usage := VMA_MEMORY_USAGE_CPU_ONLY, flags := VMA_ALLOCATION_CREATE_MAPPED_BIT }
  match vmaCreateBuffer drv w stagingBufferInfo stagingBufferAllocCreateInfo with
  | (r1, stagingBuffer, stagingBufferAlloc, pMappedData, w1) =>
    match ERR_GUARD_VULKAN r1 with
    | Except.error e => (Except.error e, w1)
    | Except.ok _ =>
      let w2 := memcpy w1 pMappedData bufferData bufferSize
      let bufferInfo : VkBufferCreateInfo :=
        { sType := VK_STRUCTURE_TYPE_BUFFER_CREATE_INFO, size := bufferSize,
          usage := bufferUsage ||| VK_BUFFER_USAGE_TRANSFER_DST_BIT,
          sharingMode := VK_SHARING_MODE_EXCLUSIVE }
      let bufferAllocCreateInfo : VmaAllocationCreateInfo :=
        { usage := VMA_MEMORY_USAGE_GPU_ONLY, flags := 0 }
      match vmaCreateBuffer drv w2 bufferInfo bufferAllocCreateInfo with
      | (r2, buffer, g_vma_BufferAlloc, _, w3) =>
        match ERR_GUARD_VULKAN r2 with
        | Except.error e => (Except.error e, w3)
        | Except.ok _ =>
          match beginSingleTimeCommands w3 commandPool with
          | (commandBuffer, w4) =>
            let copyRegion : VkBufferCopy :=
              { srcOffset := 0, dstOffset := 0, size := bufferSize }
            let w5 := vkCmdCopyBuffer w4 commandBuffer stagingBuffer buffer [copyRegion]
            let w6 := endSingleTimeCommands w5 commandPool commandBuffer
            let w7 := vmaDestroyBuffer w6 stagingBuffer stagingBufferAlloc
            (Except.ok (buffer, g_vma_BufferAlloc), w7)

/-! ## Predicates on states -/

/-- What a device-side run of commands may change is the bytes of the allocations. -/
structure SameObjects (w w1 : World) : Prop where
  buffers : w1.buffers = w.buffers
  bindings : w1.bindings = w.bindings
  commandBuffers : w1.commandBuffers = w.commandBuffers
  trace : w1.trace = w.trace
  memoryHandles : w1.memories.map (fun x => x.handle) = w.memories.map (fun x => x.handle)

/-- The calls made on the way from the state `w` to the state `w1`. -/
def newCalls (w w1 : World) : List Call := w1.trace.drop w.trace.length

/-- The buffer a call has created, if it has created one. -/
def Call.createdBuffer : Call → Option Nat
  | Call.vkCreateBuffer _ VkResult.VK_SUCCESS buffer => some buffer
  | Call.vmaCreateBuffer _ _ VkResult.VK_SUCCESS buffer _ => some buffer
  | _ => none

/-- The allocation a call has created, if it has created one. -/
def Call.createdMemory : Call → Option Nat
  | Call.vkAllocateMemory _ VkResult.VK_SUCCESS memory => some memory
  | Call.vmaCreateBuffer _ _ VkResult.VK_SUCCESS _ allocation => some allocation
  | _ => none

/-- The create info a call has asked a buffer for, if it has asked for one. -/
def Call.bufferCreateInfo : Call → Option VkBufferCreateInfo
  | Call.vkCreateBuffer pCreateInfo _ _ => some pCreateInfo
  | Call.vmaCreateBuffer pBufferCreateInfo _ _ _ _ => some pBufferCreateInfo
  | _ => none

/-- Handles of the live buffers. -/
def World.liveBuffers (w : World) : List Nat := w.buffers.map (fun b => b.handle)

/-- Handles of the live allocations. -/
def World.liveMemories (w : World) : List Nat := w.memories.map (fun m => m.handle)

/-- Every live buffer has exactly one bound allocation. -/
def BuffersBoundOnce (w : World) : Prop :=
  ∀ b ∈ w.buffers, (w.bindings.filter (fun bd => bd.buffer == b.handle)).length = 1

/-- Every live allocation is bound to at most one buffer. -/
def AllocationsBoundAtMostOnce (w : World) : Prop :=
  ∀ m ∈ w.memories, (w.bindings.filter (fun bd => bd.memory == m.handle)).length ≤ 1

/-- The invariant of the data model: every buffer has exactly one bound allocation and
every allocation is bound to at most one buffer. -/
def BindingInvariant (w : World) : Prop := BuffersBoundOnce w ∧ AllocationsBoundAtMostOnce w

instance (w : World) : Decidable (BuffersBoundOnce w) :=
  inferInstanceAs (Decidable (∀ b ∈ w.buffers, _))

instance (w : World) : Decidable (AllocationsBoundAtMostOnce w) :=
  inferInstanceAs (Decidable (∀ m ∈ w.memories, _))

instance (w : World) : Decidable (BindingInvariant w) :=
  inferInstanceAs (Decidable (_ ∧ _))

/-! ## Concrete states and drivers, for evaluation -/

/-- The state with nothing live and no call made. -/
def emptyWorld : World := ⟨[], [], [], [], []⟩

/-- A driver whose every call succeeds: requirements are the buffer size rounded up to a
multiple of 4, memory type 0 is the one allowed, and it has every property. -/
def okDriver : Driver :=
  { createBufferResult := fun _ _ => VkResult.VK_SUCCESS,
    memoryRequirements := fun info => ⟨(info.size + 3) / 4 * 4, 4, 1⟩,
    GetMemoryTypeIndex := fun _ _ => 0,
    memoryTypeFlags := fun _ => 7,
    allocateMemoryResult := fun _ _ => VkResult.VK_SUCCESS,
    bindBufferMemoryResult := fun _ _ _ _ => VkResult.VK_SUCCESS,
    mapMemoryResult := fun _ _ _ _ => VkResult.VK_SUCCESS,
    vmaCreateBufferResult := fun _ _ _ => VkResult.VK_SUCCESS,
    vmaMemoryTypeIndex := fun _ _ => 0 }

/-- As `okDriver`, but binding memory to a buffer fails. -/
def bindFailsDriver : Driver :=
  { okDriver with
    bindBufferMemoryResult := fun _ _ _ _ => VkResult.VK_ERROR_OUT_OF_DEVICE_MEMORY }

/-- As `okDriver`, but allocating memory fails. -/
def allocFailsDriver : Driver :=
  { okDriver with
    allocateMemoryResult := fun _ _ => VkResult.VK_ERROR_OUT_OF_DEVICE_MEMORY }

/-- As `okDriver`, but creating a buffer fails once a buffer is live: the first buffer
of a call is created, the second is not. -/
def secondBufferFailsDriver : Driver :=
  { okDriver with
    createBufferResult := fun w _ =>
      if w.buffers.isEmpty then VkResult.VK_SUCCESS
      else VkResult.VK_ERROR_OUT_OF_DEVICE_MEMORY }

/-- As `okDriver`, but the allocator library grants only requests of intent `GPU_ONLY`:
a staging buffer (`CPU_ONLY`) is refused. -/
def gpuOnlyDriver : Driver :=
  { okDriver with
    vmaCreateBufferResult := fun _ _ ainfo =>
      if ainfo.usage = VMA_MEMORY_USAGE_GPU_ONLY then VkResult.VK_SUCCESS
      else VkResult.VK_ERROR_OUT_OF_HOST_MEMORY }

/-- A state with two live buffers: buffer 1 (4 bytes) on allocation 2 and buffer 3
(6 bytes) on allocation 4 (8 bytes), both bound at offset 0. -/
def twoBuffersWorld : World :=
  { buffers := [⟨1, ⟨VK_STRUCTURE_TYPE_BUFFER_CREATE_INFO, 4, VK_BUFFER_USAGE_TRANSFER_SRC_BIT,
                  VK_SHARING_MODE_EXCLUSIVE⟩⟩,
                ⟨3, ⟨VK_STRUCTURE_TYPE_BUFFER_CREATE_INFO, 6, VK_BUFFER_USAGE_TRANSFER_DST_BIT,
                  VK_SHARING_MODE_EXCLUSIVE⟩⟩],
    memories := [⟨2, ⟨VK_STRUCTURE_TYPE_MEMORY_ALLOCATE_INFO, 4, 0⟩, [10, 20, 30, 40], none⟩,
                 ⟨4, ⟨VK_STRUCTURE_TYPE_MEMORY_ALLOCATE_INFO, 8, 0⟩, [1, 2, 3, 4, 5, 6, 7, 8],
                   none⟩],
    bindings := [⟨1, 2, 0⟩, ⟨3, 4, 0⟩],
    commandBuffers := [],
    trace := [] }

deriving instance DecidableEq for Except

/-! ## Frame lemmas: what each device operation leaves alone -/

section Frame

@[simp] theorem writeMemory_buffers (w : World) (m o : Nat) (s : List Nat) :
    (w.writeMemory m o s).buffers = w.buffers := rfl

@[simp] theorem writeMemory_bindings (w : World) (m o : Nat) (s : List Nat) :
    (w.writeMemory m o s).bindings = w.bindings := rfl

@[simp] theorem writeMemory_commandBuffers (w : World) (m o : Nat) (s : List Nat) :
    (w.writeMemory m o s).commandBuffers = w.commandBuffers := rfl

@[simp] theorem writeMemory_trace (w : World) (m o : Nat) (s : List Nat) :
    (w.writeMemory m o s).trace = w.trace := rfl

@[simp] theorem writeMemory_handles (w : World) (m o : Nat) (s : List Nat) :
    (w.writeMemory m o s).memories.map (fun x => x.handle)
      = w.memories.map (fun x => x.handle) := by
  simp only [World.writeMemory, List.map_map]
  apply List.map_congr_left
  intro x _
  by_cases hx : x.handle = m <;> simp [hx]

@[simp] theorem writeBuffer_buffers (w : World) (b o : Nat) (s : List Nat) :
    (w.writeBuffer b o s).buffers = w.buffers := by
  unfold World.writeBuffer; split <;> rfl

@[simp] theorem writeBuffer_bindings (w : World) (b o : Nat) (s : List Nat) :
    (w.writeBuffer b o s).bindings = w.bindings := by
  unfold World.writeBuffer; split <;> rfl

@[simp] theorem writeBuffer_commandBuffers (w : World) (b o : Nat) (s : List Nat) :
    (w.writeBuffer b o s).commandBuffers = w.commandBuffers := by
  unfold World.writeBuffer; split <;> rfl

@[simp] theorem writeBuffer_trace (w : World) (b o : Nat) (s : List Nat) :
    (w.writeBuffer b o s).trace = w.trace := by
  unfold World.writeBuffer; split <;> rfl

@[simp] theorem writeBuffer_handles (w : World) (b o : Nat) (s : List Nat) :
    (w.writeBuffer b o s).memories.map (fun x => x.handle)
      = w.memories.map (fun x => x.handle) := by
  unfold World.writeBuffer; split
  · exact writeMemory_handles _ _ _ _
  · rfl

theorem SameObjects.refl (w : World) : SameObjects w w := ⟨rfl, rfl, rfl, rfl, rfl⟩

theorem SameObjects.trans {a b c : World} (h1 : SameObjects a b) (h2 : SameObjects b c) :
    SameObjects a c :=
  ⟨h2.buffers.trans h1.buffers, h2.bindings.trans h1.bindings,
    h2.commandBuffers.trans h1.commandBuffers, h2.trace.trans h1.trace,
    h2.memoryHandles.trans h1.memoryHandles⟩

theorem copyRegion_sameObjects (w : World) (s d : Nat) (r : VkBufferCopy) :
    SameObjects w (w.copyRegion s d r) := by
  unfold World.copyRegion
  exact ⟨by simp, by simp, by simp, by simp, by simp⟩

theorem foldl_copyRegion_sameObjects (s d : Nat) (rs : List VkBufferCopy) (w : World) :
    SameObjects w (rs.foldl (fun w1 r => w1.copyRegion s d r) w) := by
  induction rs generalizing w with
  | nil => exact SameObjects.refl w
  | cons r rs ih => exact (copyRegion_sameObjects w s d r).trans (ih _)

theorem execute_sameObjects (w : World) (c : CopyCommand) : SameObjects w (w.execute c) :=
  foldl_copyRegion_sameObjects _ _ _ _

theorem foldl_execute_sameObjects (cs : List CopyCommand) (w : World) :
    SameObjects w (cs.foldl World.execute w) := by
  induction cs generalizing w with
  | nil => exact SameObjects.refl w
  | cons c cs ih => exact (execute_sameObjects w c).trans (ih _)

end Frame

/-! ## The single-time command helper -/

theorem endSingleTimeCommands_sameObjects (w : World) (p cb : Nat) :
    ∃ w1, SameObjects w w1 ∧
      endSingleTimeCommands w p cb =
        { w1 with
          commandBuffers := w1.commandBuffers.filter (fun c => c.handle != cb),
          trace := w1.trace ++ [Call.endSingleTimeCommands p cb] } := by
  unfold endSingleTimeCommands
  exact ⟨_, foldl_execute_sameObjects _ _, rfl⟩

@[simp] theorem endSingleTimeCommands_trace (w : World) (p cb : Nat) :
    (endSingleTimeCommands w p cb).trace = w.trace ++ [Call.endSingleTimeCommands p cb] := by
  obtain ⟨w1, h, e⟩ := endSingleTimeCommands_sameObjects w p cb
  rw [e]; simp [h.trace]

@[simp] theorem endSingleTimeCommands_buffers (w : World) (p cb : Nat) :
    (endSingleTimeCommands w p cb).buffers = w.buffers := by
  obtain ⟨w1, h, e⟩ := endSingleTimeCommands_sameObjects w p cb
  rw [e]; simp [h.buffers]

@[simp] theorem endSingleTimeCommands_bindings (w : World) (p cb : Nat) :
    (endSingleTimeCommands w p cb).bindings = w.bindings := by
  obtain ⟨w1, h, e⟩ := endSingleTimeCommands_sameObjects w p cb
  rw [e]; simp [h.bindings]

@[simp] theorem endSingleTimeCommands_commandBuffers (w : World) (p cb : Nat) :
    (endSingleTimeCommands w p cb).commandBuffers
      = w.commandBuffers.filter (fun c => c.handle != cb) := by
  obtain ⟨w1, h, e⟩ := endSingleTimeCommands_sameObjects w p cb
  rw [e]; simp [h.commandBuffers]

@[simp] theorem endSingleTimeCommands_handles (w : World) (p cb : Nat) :
    (endSingleTimeCommands w p cb).memories.map (fun x => x.handle)
      = w.memories.map (fun x => x.handle) := by
  obtain ⟨w1, h, e⟩ := endSingleTimeCommands_sameObjects w p cb
  rw [e]; simp [h.memoryHandles]

@[simp] theorem memcpy_trace (w : World) (dst : HostPtr) (src : List Nat) (n : Nat) :
    (memcpy w dst src n).trace = w.trace ++ [Call.memcpy dst src n] := by
  unfold memcpy; split <;> simp [World.log]

@[simp] theorem memcpy_buffers (w : World) (dst : HostPtr) (src : List Nat) (n : Nat) :
    (memcpy w dst src n).buffers = w.buffers := by
  unfold memcpy; split <;> simp [World.log]

@[simp] theorem memcpy_bindings (w : World) (dst : HostPtr) (src : List Nat) (n : Nat) :
    (memcpy w dst src n).bindings = w.bindings := by
  unfold memcpy; split <;> simp [World.log]

@[simp] theorem memcpy_commandBuffers (w : World) (dst : HostPtr) (src : List Nat) (n : Nat) :
    (memcpy w dst src n).commandBuffers = w.commandBuffers := by
  unfold memcpy; split <;> simp [World.log]

@[simp] theorem memcpy_handles (w : World) (dst : HostPtr) (src : List Nat) (n : Nat) :
    (memcpy w dst src n).memories.map (fun x => x.handle)
      = w.memories.map (fun x => x.handle) := by
  unfold memcpy; split <;> simp [World.log]

/-! ## The allocator library -/

theorem ERR_GUARD_VULKAN_ok {r : VkResult} {u : Unit} (h : ERR_GUARD_VULKAN r = Except.ok u) :
    r = VkResult.VK_SUCCESS := by
  unfold ERR_GUARD_VULKAN at h
  by_cases hr : r = VkResult.VK_SUCCESS
  · exact hr
  · simp [hr] at h

theorem vmaCreateBuffer_trace {drv : Driver} {w w1 : World} {info : VkBufferCreateInfo}
    {ainfo : VmaAllocationCreateInfo} {r : VkResult} {b a : Nat} {p : HostPtr}
    (h : vmaCreateBuffer drv w info ainfo = (r, b, a, p, w1)) :
    w1.trace = w.trace ++ [Call.vmaCreateBuffer info ainfo r b a] := by
  unfold vmaCreateBuffer at h
  by_cases hr : drv.vmaCreateBufferResult w info ainfo = VkResult.VK_SUCCESS
  · simp only [if_pos hr, Prod.mk.injEq] at h
    obtain ⟨rfl, rfl, rfl, -, rfl⟩ := h
    rfl
  · simp only [if_neg hr, Prod.mk.injEq] at h
    obtain ⟨rfl, rfl, rfl, -, rfl⟩ := h
    rfl

theorem vmaCreateBuffer_success {drv : Driver} {w w1 : World} {info : VkBufferCreateInfo}
    {ainfo : VmaAllocationCreateInfo} {b a : Nat} {p : HostPtr}
    (h : vmaCreateBuffer drv w info ainfo = (VkResult.VK_SUCCESS, b, a, p, w1)) :
    b = w.freshHandle ∧ a = w.freshHandle + 1 ∧
    p = (if ainfo.flags &&& VMA_ALLOCATION_CREATE_MAPPED_BIT ≠ 0 then some (a, 0) else none) ∧
    w1.buffers = w.buffers ++ [⟨b, info⟩] ∧
    w1.memories = w.memories ++
      [⟨a, ⟨VK_STRUCTURE_TYPE_MEMORY_ALLOCATE_INFO, (drv.memoryRequirements info).size,
          drv.vmaMemoryTypeIndex (drv.memoryRequirements info) ainfo⟩,
        List.replicate (drv.memoryRequirements info).size 0, some ainfo⟩] ∧
    w1.bindings = w.bindings ++ [⟨b, a, 0⟩] ∧
    w1.commandBuffers = w.commandBuffers := by
  unfold vmaCreateBuffer at h
  by_cases hr : drv.vmaCreateBufferResult w info ainfo = VkResult.VK_SUCCESS
  · simp only [if_pos hr, Prod.mk.injEq] at h
    obtain ⟨-, rfl, rfl, rfl, rfl⟩ := h
    exact ⟨rfl, rfl, rfl, rfl, rfl, rfl, rfl⟩
  · simp only [if_neg hr, Prod.mk.injEq] at h
    exact absurd h.1 hr

/-! ## Fresh handles -/

theorem le_foldr_max {l : List Nat} {x : Nat} (h : x ∈ l) : x ≤ l.foldr max 0 := by
  induction l with
  | nil => cases h
  | cons y ys ih =>
    rcases List.mem_cons.mp h with rfl | h1
    · exact le_max_left _ _
    · exact le_trans (ih h1) (le_max_right _ _)

theorem foldr_max_append (l1 l2 : List Nat) :
    (l1 ++ l2).foldr max 0 = max (l1.foldr max 0) (l2.foldr max 0) := by
  induction l1 with
  | nil => simp
  | cons y ys ih => simp [ih, max_assoc]

theorem lt_freshHandle {w : World} {h : Nat} (hm : h ∈ w.handles) : h < w.freshHandle :=
  Nat.lt_succ_of_le (le_foldr_max hm)

theorem buffer_lt_freshHandle {w : World} {b : BufferObject} (hb : b ∈ w.buffers) :
    b.handle < w.freshHandle := by
  apply lt_freshHandle
  simp only [World.handles, List.mem_append, List.mem_map]
  exact Or.inl (Or.inl (Or.inl (Or.inl ⟨b, hb, rfl⟩)))

theorem memory_lt_freshHandle {w : World} {m : MemoryObject} (hm : m ∈ w.memories) :
    m.handle < w.freshHandle := by
  apply lt_freshHandle
  simp only [World.handles, List.mem_append, List.mem_map]
  exact Or.inl (Or.inl (Or.inl (Or.inr ⟨m, hm, rfl⟩)))

theorem binding_buffer_lt_freshHandle {w : World} {bd : Binding} (hb : bd ∈ w.bindings) :
    bd.buffer < w.freshHandle := by
  apply lt_freshHandle
  simp only [World.handles, List.mem_append, List.mem_map]
  exact Or.inl (Or.inl (Or.inr ⟨bd, hb, rfl⟩))

theorem binding_memory_lt_freshHandle {w : World} {bd : Binding} (hb : bd ∈ w.bindings) :
    bd.memory < w.freshHandle := by
  apply lt_freshHandle
  simp only [World.handles, List.mem_append, List.mem_map]
  exact Or.inl (Or.inr ⟨bd, hb, rfl⟩)

theorem commandBuffer_lt_freshHandle {w : World} {c : CommandBufferObject}
    (hc : c ∈ w.commandBuffers) : c.handle < w.freshHandle := by
  apply lt_freshHandle
  simp only [World.handles, List.mem_append, List.mem_map]
  exact Or.inr ⟨c, hc, rfl⟩

/-- A state that differs from `w` by one more buffer, with the fresh handle, gives out
the next handle. -/
theorem freshHandle_after_buffer {w w1 : World} {info : VkBufferCreateInfo}
    (hb : w1.buffers = w.buffers ++ [⟨w.freshHandle, info⟩]) (hm : w1.memories = w.memories)
    (hbd : w1.bindings = w.bindings) (hc : w1.commandBuffers = w.commandBuffers) :
    w1.freshHandle = w.freshHandle + 1 := by
  simp only [World.freshHandle, World.handles, hb, hm, hbd, hc, List.map_append,
    foldr_max_append, List.map_cons, List.map_nil, List.foldr_cons, List.foldr_nil]
  omega

@[simp] theorem log_buffers (w : World) (c : Call) : (w.log c).buffers = w.buffers := rfl

@[simp] theorem log_memories (w : World) (c : Call) : (w.log c).memories = w.memories := rfl

@[simp] theorem log_bindings (w : World) (c : Call) : (w.log c).bindings = w.bindings := rfl

@[simp] theorem log_commandBuffers (w : World) (c : Call) :
    (w.log c).commandBuffers = w.commandBuffers := rfl

@[simp] theorem log_trace (w : World) (c : Call) : (w.log c).trace = w.trace ++ [c] := rfl

@[simp] theorem log_freshHandle (w : World) (c : Call) : (w.log c).freshHandle = w.freshHandle :=
  rfl

@[simp] theorem log_findBuffer (w : World) (c : Call) (b : Nat) :
    (w.log c).findBuffer b = w.findBuffer b := rfl

theorem find?_append_fresh {α : Type} (p : α → Bool) (l : List α) (x : α)
    (hl : ∀ y ∈ l, p y = false) (hx : p x = true) : (l ++ [x]).find? p = some x := by
  induction l with
  | nil => simp [List.find?, hx]
  | cons y ys ih =>
    have hy : p y = false := hl y (List.mem_cons_self _ _)
    simp only [List.cons_append, List.find?, hy]
    exact ih (fun z hz => hl z (List.mem_cons_of_mem _ hz))

/-! ## The graphics API, call by call -/

theorem vkCreateBuffer_spec {drv : Driver} {w w1 : World} {info : VkBufferCreateInfo}
    {r : VkResult} {b : Nat} (h : vkCreateBuffer drv w info = (r, b, w1)) :
    r = drv.createBufferResult w info ∧
    w1.memories = w.memories ∧ w1.bindings = w.bindings ∧
    w1.commandBuffers = w.commandBuffers ∧
    w1.trace = w.trace ++ [Call.vkCreateBuffer info r b] ∧
    (r = VkResult.VK_SUCCESS → b = w.freshHandle ∧ w1.buffers = w.buffers ++ [⟨b, info⟩]) ∧
    (r ≠ VkResult.VK_SUCCESS → w1.buffers = w.buffers) := by
  unfold vkCreateBuffer at h
  by_cases hr : drv.createBufferResult w info = VkResult.VK_SUCCESS
  · simp only [if_pos hr, Prod.mk.injEq] at h
    obtain ⟨rfl, rfl, rfl⟩ := h
    exact ⟨rfl, rfl, rfl, rfl, rfl, fun _ => ⟨rfl, rfl⟩, fun hne => absurd hr hne⟩
  · simp only [if_neg hr, Prod.mk.injEq] at h
    obtain ⟨rfl, rfl, rfl⟩ := h
    exact ⟨rfl, rfl, rfl, rfl, rfl, fun he => absurd he hr, fun _ => rfl⟩

theorem vkAllocateMemory_spec {drv : Driver} {w w1 : World} {info : VkMemoryAllocateInfo}
    {r : VkResult} {m : Nat} (h : vkAllocateMemory drv w info = (r, m, w1)) :
    r = drv.allocateMemoryResult w info ∧
    w1.buffers = w.buffers ∧ w1.bindings = w.bindings ∧
    w1.commandBuffers = w.commandBuffers ∧
    w1.trace = w.trace ++ [Call.vkAllocateMemory info r m] ∧
    (r = VkResult.VK_SUCCESS → m = w.freshHandle ∧
      w1.memories = w.memories ++ [⟨m, info, List.replicate info.allocationSize 0, none⟩]) ∧
    (r ≠ VkResult.VK_SUCCESS → w1.memories = w.memories) := by
  unfold vkAllocateMemory at h
  by_cases hr : drv.allocateMemoryResult w info = VkResult.VK_SUCCESS
  · simp only [if_pos hr, Prod.mk.injEq] at h
    obtain ⟨rfl, rfl, rfl⟩ := h
    exact ⟨rfl, rfl, rfl, rfl, rfl, fun _ => ⟨rfl, rfl⟩, fun hne => absurd hr hne⟩
  · simp only [if_neg hr, Prod.mk.injEq] at h
    obtain ⟨rfl, rfl, rfl⟩ := h
    exact ⟨rfl, rfl, rfl, rfl, rfl, fun he => absurd he hr, fun _ => rfl⟩

theorem vkBindBufferMemory_spec {drv : Driver} {w w1 : World} {b m o : Nat} {r : VkResult}
    (h : vkBindBufferMemory drv w b m o = (r, w1)) :
    r = drv.bindBufferMemoryResult w b m o ∧
    w1.buffers = w.buffers ∧ w1.memories = w.memories ∧
    w1.commandBuffers = w.commandBuffers ∧
    w1.trace = w.trace ++ [Call.vkBindBufferMemory b m o r] ∧
    w1.bindings = w.bindings ++ (if r = VkResult.VK_SUCCESS then [⟨b, m, o⟩] else []) := by
  unfold vkBindBufferMemory at h
  by_cases hr : drv.bindBufferMemoryResult w b m o = VkResult.VK_SUCCESS
  · simp only [if_pos hr, Prod.mk.injEq] at h
    obtain ⟨rfl, rfl⟩ := h
    exact ⟨rfl, rfl, rfl, rfl, rfl, by simp [hr]⟩
  · simp only [if_neg hr, Prod.mk.injEq] at h
    obtain ⟨rfl, rfl⟩ := h
    exact ⟨rfl, rfl, rfl, rfl, rfl, by simp [hr]⟩

theorem findBuffer_fresh {w w1 : World} {info : VkBufferCreateInfo}
    (hb : w1.buffers = w.buffers ++ [⟨w.freshHandle, info⟩]) :
    w1.findBuffer w.freshHandle = some ⟨w.freshHandle, info⟩ := by
  unfold World.findBuffer
  rw [hb]
  apply find?_append_fresh
  · intro y hy
    have := buffer_lt_freshHandle hy
    simp only [beq_eq_false_iff_ne, ne_eq]
    omega
  · simp

/-! ## CreateBuffer -/

/-- What a completed `CreateBuffer` has done to the state. -/
theorem CreateBuffer_ok {drv : Driver} {w w1 : World} {allowedUsage size properties b m : Nat}
    (h : CreateBuffer drv w allowedUsage size properties = (Except.ok (b, m), w1)) :
    drv.createBufferResult w ⟨VK_STRUCTURE_TYPE_BUFFER_CREATE_INFO, size, allowedUsage,
      VK_SHARING_MODE_EXCLUSIVE⟩ = VkResult.VK_SUCCESS ∧
    b = w.freshHandle ∧ m = w.freshHandle + 1 ∧
    w1.buffers = w.buffers ++
      [⟨b, ⟨VK_STRUCTURE_TYPE_BUFFER_CREATE_INFO, size, allowedUsage, VK_SHARING_MODE_EXCLUSIVE⟩⟩] ∧
    w1.memories = w.memories ++
      [⟨m, ⟨VK_STRUCTURE_TYPE_MEMORY_ALLOCATE_INFO,
            (drv.memoryRequirements ⟨VK_STRUCTURE_TYPE_BUFFER_CREATE_INFO, size, allowedUsage,
              VK_SHARING_MODE_EXCLUSIVE⟩).size,
            drv.GetMemoryTypeIndex
              (drv.memoryRequirements ⟨VK_STRUCTURE_TYPE_BUFFER_CREATE_INFO, size, allowedUsage,
                VK_SHARING_MODE_EXCLUSIVE⟩).memoryTypeBits properties⟩,
          List.replicate (drv.memoryRequirements ⟨VK_STRUCTURE_TYPE_BUFFER_CREATE_INFO, size,
            allowedUsage, VK_SHARING_MODE_EXCLUSIVE⟩).size 0, none⟩] ∧
    w1.commandBuffers = w.commandBuffers ∧
    ∃ r3 : VkResult,
      w1.bindings = w.bindings ++ (if r3 = VkResult.VK_SUCCESS then [⟨b, m, 0⟩] else []) ∧
      w1.trace = w.trace ++
        [Call.vkCreateBuffer ⟨VK_STRUCTURE_TYPE_BUFFER_CREATE_INFO, size, allowedUsage,
            VK_SHARING_MODE_EXCLUSIVE⟩ VkResult.VK_SUCCESS b,
         Call.vkGetBufferMemoryRequirements b
           (drv.memoryRequirements ⟨VK_STRUCTURE_TYPE_BUFFER_CREATE_INFO, size, allowedUsage,
              VK_SHARING_MODE_EXCLUSIVE⟩),
         Call.GetMemoryTypeIndex
           (drv.memoryRequirements ⟨VK_STRUCTURE_TYPE_BUFFER_CREATE_INFO, size, allowedUsage,
              VK_SHARING_MODE_EXCLUSIVE⟩).memoryTypeBits properties
           (drv.GetMemoryTypeIndex
              (drv.memoryRequirements ⟨VK_STRUCTURE_TYPE_BUFFER_CREATE_INFO, size, allowedUsage,
                VK_SHARING_MODE_EXCLUSIVE⟩).memoryTypeBits properties),
         Call.vkAllocateMemory
           ⟨VK_STRUCTURE_TYPE_MEMORY_ALLOCATE_INFO,
            (drv.memoryRequirements ⟨VK_STRUCTURE_TYPE_BUFFER_CREATE_INFO, size, allowedUsage,
              VK_SHARING_MODE_EXCLUSIVE⟩).size,
            drv.GetMemoryTypeIndex
              (drv.memoryRequirements ⟨VK_STRUCTURE_TYPE_BUFFER_CREATE_INFO, size, allowedUsage,
                VK_SHARING_MODE_EXCLUSIVE⟩).memoryTypeBits properties⟩ VkResult.VK_SUCCESS m,
         Call.vkBindBufferMemory b m 0 r3] := by
  unfold CreateBuffer at h
  generalize (⟨VK_STRUCTURE_TYPE_BUFFER_CREATE_INFO, size, allowedUsage,
      VK_SHARING_MODE_EXCLUSIVE⟩ : VkBufferCreateInfo) = info at h ⊢
  rcases hc : vkCreateBuffer drv w info with ⟨r1, b1, wa⟩
  simp only [hc] at h
  obtain ⟨hr, hcm, hcbd, hccb, hct, hcs, -⟩ := vkCreateBuffer_spec hc
  by_cases hr1 : r1 = VkResult.VK_SUCCESS
  swap
  · simp [hr1] at h
  obtain ⟨hb1, hcb⟩ := hcs hr1
  subst hb1
  rw [hr1] at hr
  cases hr1
  have hfb : wa.findBuffer w.freshHandle = some ⟨w.freshHandle, info⟩ := findBuffer_fresh hcb
  simp only [ne_eq, not_true_eq_false, if_false, vkGetBufferMemoryRequirements, hfb,
    GetMemoryTypeIndex] at h
  generalize hw3 : ((wa.log (Call.vkGetBufferMemoryRequirements w.freshHandle
    (drv.memoryRequirements info))).log (Call.GetMemoryTypeIndex
      (drv.memoryRequirements info).memoryTypeBits properties (drv.GetMemoryTypeIndex
        (drv.memoryRequirements info).memoryTypeBits properties))) = w3 at h
  rcases ha : vkAllocateMemory drv w3 ⟨VK_STRUCTURE_TYPE_MEMORY_ALLOCATE_INFO,
    (drv.memoryRequirements info).size, drv.GetMemoryTypeIndex
        (drv.memoryRequirements info).memoryTypeBits properties⟩ with ⟨r2, m1, wb⟩
  simp only [ha] at h
  obtain ⟨-, hab, habd, hacb, hat, has, -⟩ := vkAllocateMemory_spec ha
  by_cases hr2 : r2 = VkResult.VK_SUCCESS
  swap
  · simp [hr2] at h
  obtain ⟨hm1, ham⟩ := has hr2
  subst hr2
  simp only [ne_eq, not_true_eq_false, if_false] at h
  rcases hbn : vkBindBufferMemory drv wb w.freshHandle m1 0 with ⟨r3, wc⟩
  simp only [hbn, Prod.mk.injEq, Except.ok.injEq] at h
  obtain ⟨⟨rfl, rfl⟩, rfl⟩ := h
  obtain ⟨-, hbb, hbm, hbcb, hbt, hbbd⟩ := vkBindBufferMemory_spec hbn
  have hf3 : w3.freshHandle = w.freshHandle + 1 := by
    subst hw3
    exact freshHandle_after_buffer hcb hcm hcbd hccb
  have h3b : w3.buffers = wa.buffers := by subst hw3; rfl
  have h3m : w3.memories = wa.memories := by subst hw3; rfl
  have h3bd : w3.bindings = wa.bindings := by subst hw3; rfl
  have h3cb : w3.commandBuffers = wa.commandBuffers := by subst hw3; rfl
  have h3t : w3.trace = wa.trace ++ [Call.vkGetBufferMemoryRequirements w.freshHandle
    (drv.memoryRequirements info), Call.GetMemoryTypeIndex
      (drv.memoryRequirements info).memoryTypeBits properties (drv.GetMemoryTypeIndex
        (drv.memoryRequirements info).memoryTypeBits properties)] := by subst hw3; simp
  refine ⟨hr.symm, rfl, hm1.trans hf3, ?_, ?_, ?_, r3, ?_, ?_⟩
  · rw [hbb, hab, h3b, hcb]
  · rw [hbm, ham, h3m, hcm]
  · rw [hbcb, hacb, h3cb, hccb]
  · rw [hbbd, habd, h3bd, hcbd]
  · rw [hbt, hat, h3t, hct]; simp

theorem CreateBuffer_error {drv : Driver} {w w1 : World} {allowedUsage size properties : Nat}
    {e : Error} (h : CreateBuffer drv w allowedUsage size properties = (Except.error e, w1)) :
    w1.memories = w.memories ∧ w1.bindings = w.bindings ∧
    w1.commandBuffers = w.commandBuffers ∧
    ((drv.createBufferResult w ⟨VK_STRUCTURE_TYPE_BUFFER_CREATE_INFO, size, allowedUsage,
          VK_SHARING_MODE_EXCLUSIVE⟩ ≠ VkResult.VK_SUCCESS ∧ w1.buffers = w.buffers) ∨
     (drv.createBufferResult w ⟨VK_STRUCTURE_TYPE_BUFFER_CREATE_INFO, size, allowedUsage,
          VK_SHARING_MODE_EXCLUSIVE⟩ = VkResult.VK_SUCCESS ∧
      w1.buffers = w.buffers ++ [⟨w.freshHandle, ⟨VK_STRUCTURE_TYPE_BUFFER_CREATE_INFO, size,
        allowedUsage, VK_SHARING_MODE_EXCLUSIVE⟩⟩])) := by
  unfold CreateBuffer at h
  generalize (⟨VK_STRUCTURE_TYPE_BUFFER_CREATE_INFO, size, allowedUsage,
      VK_SHARING_MODE_EXCLUSIVE⟩ : VkBufferCreateInfo) = info at h ⊢
  rcases hc : vkCreateBuffer drv w info with ⟨r1, b1, wa⟩
  simp only [hc] at h
  obtain ⟨hr, hcm, hcbd, hccb, hct, hcs, hcf⟩ := vkCreateBuffer_spec hc
  by_cases hr1 : r1 = VkResult.VK_SUCCESS
  swap
  · simp only [ne_eq, hr1, not_false_eq_true, if_true, Prod.mk.injEq] at h
    obtain ⟨-, rfl⟩ := h
    exact ⟨hcm, hcbd, hccb, Or.inl ⟨hr ▸ hr1, hcf hr1⟩⟩
  obtain ⟨hb1, hcb⟩ := hcs hr1
  subst hb1
  rw [hr1] at hr
  cases hr1
  simp only [ne_eq, not_true_eq_false, if_false, vkGetBufferMemoryRequirements,
    GetMemoryTypeIndex] at h
  rcases ha : vkAllocateMemory drv ((wa.log (Call.vkGetBufferMemoryRequirements w.freshHandle
      (match wa.findBuffer w.freshHandle with
        | some b => drv.memoryRequirements b.createInfo
        | none => ⟨0, 0, 0⟩))).log (Call.GetMemoryTypeIndex
      (match wa.findBuffer w.freshHandle with
        | some b => drv.memoryRequirements b.createInfo
        | none => ⟨0, 0, 0⟩).memoryTypeBits properties (drv.GetMemoryTypeIndex
        (match wa.findBuffer w.freshHandle with
        | some b => drv.memoryRequirements b.createInfo
        | none => ⟨0, 0, 0⟩).memoryTypeBits properties)))
      ⟨VK_STRUCTURE_TYPE_MEMORY_ALLOCATE_INFO,
        (match wa.findBuffer w.freshHandle with
        | some b => drv.memoryRequirements b.createInfo
        | none => ⟨0, 0, 0⟩).size, drv.GetMemoryTypeIndex
        (match wa.findBuffer w.freshHandle with
        | some b => drv.memoryRequirements b.createInfo
        | none => ⟨0, 0, 0⟩).memoryTypeBits properties⟩ with ⟨r2, m1, wb⟩
  simp only [ha] at h
  obtain ⟨-, hab, habd, hacb, hat, has, haf⟩ := vkAllocateMemory_spec ha
  by_cases hr2 : r2 = VkResult.VK_SUCCESS
  · simp [hr2] at h
  simp only [ne_eq, hr2, not_false_eq_true, if_true, Prod.mk.injEq] at h
  obtain ⟨-, rfl⟩ := h
  refine ⟨?_, ?_, ?_, Or.inr ⟨hr.symm, ?_⟩⟩
  · rw [haf hr2]; exact hcm
  · rw [habd]; exact hcbd
  · rw [hacb]; exact hccb
  · rw [hab]; exact hcb

/-! ## The binding invariant -/

theorem filter_buffer_fresh (w : World) :
    w.bindings.filter (fun bd => bd.buffer == w.freshHandle) = [] := by
  rw [List.filter_eq_nil_iff]
  intro bd hbd
  have := binding_buffer_lt_freshHandle hbd
  simp only [beq_iff_eq]
  omega

theorem filter_memory_fresh (w : World) :
    w.bindings.filter (fun bd => bd.memory == w.freshHandle + 1) = [] := by
  rw [List.filter_eq_nil_iff]
  intro bd hbd
  have := binding_memory_lt_freshHandle hbd
  simp only [beq_iff_eq]
  omega

/-- Adding a fresh buffer, a fresh allocation and the binding between the two keeps the
invariant. -/
theorem BindingInvariant_add {w w1 : World} {info : VkBufferCreateInfo} {mo : MemoryObject}
    (hinv : BindingInvariant w) (hm : mo.handle = w.freshHandle + 1)
    (hb : w1.buffers = w.buffers ++ [⟨w.freshHandle, info⟩])
    (hmem : w1.memories = w.memories ++ [mo])
    (hbd : w1.bindings = w.bindings ++ [⟨w.freshHandle, w.freshHandle + 1, 0⟩]) :
    BindingInvariant w1 := by
  constructor
  · intro x hx
    rw [hb, List.mem_append, List.mem_singleton] at hx
    rw [hbd, List.filter_append]
    rcases hx with hx | rfl
    · have hlt := buffer_lt_freshHandle hx
      have hne : (w.freshHandle == x.handle) = false := by
        simp only [beq_eq_false_iff_ne, ne_eq]; omega
      simp [List.filter, hne, hinv.1 x hx]
    · simp [filter_buffer_fresh]
  · intro x hx
    rw [hmem, List.mem_append, List.mem_singleton] at hx
    rw [hbd, List.filter_append]
    rcases hx with hx | rfl
    · have hlt := memory_lt_freshHandle hx
      have hne : (w.freshHandle + 1 == x.handle) = false := by
        simp only [beq_eq_false_iff_ne, ne_eq]; omega
      simp [List.filter, hne, hinv.2 x hx]
    · simp [hm, filter_memory_fresh]

theorem newCalls_append (w w1 : World) (cs : List Call) (h : w1.trace = w.trace ++ cs) :
    newCalls w w1 = cs := by
  unfold newCalls
  rw [h, List.drop_left]

/-! ## CopyBuffer -/

theorem bufferBytes_congr {w w1 : World} (hb : w1.buffers = w.buffers)
    (hbd : w1.bindings = w.bindings) (hm : w1.memories = w.memories) (x : Nat) :
    w1.bufferBytes x = w.bufferBytes x := by
  simp only [World.bufferBytes, World.findBuffer, World.findBinding, World.findMemory, hb, hbd, hm]

theorem copyRegion_memories_congr {w w1 : World} (hb : w1.buffers = w.buffers)
    (hbd : w1.bindings = w.bindings) (hm : w1.memories = w.memories) (s d : Nat)
    (r : VkBufferCopy) : (w1.copyRegion s d r).memories = (w.copyRegion s d r).memories := by
  simp only [World.copyRegion, World.writeBuffer, World.findBinding, hbd,
    bufferBytes_congr hb hbd hm]
  split
  · simp only [World.writeMemory, hm]
  · exact hm

theorem map_record_fresh (w : World) (cmd : CopyCommand) :
    w.commandBuffers.map (fun c =>
      if c.handle = w.freshHandle then { c with commands := c.commands ++ [cmd] } else c)
      = w.commandBuffers := by
  conv => rhs; rw [← List.map_id w.commandBuffers]
  apply List.map_congr_left
  intro c hc
  have := commandBuffer_lt_freshHandle hc
  have hne : c.handle ≠ w.freshHandle := by omega
  simp [hne]

theorem filter_commandBuffers_fresh (w : World) :
    w.commandBuffers.filter (fun c => c.handle != w.freshHandle) = w.commandBuffers := by
  rw [List.filter_eq_self]
  intro c hc
  have := commandBuffer_lt_freshHandle hc
  simp only [bne_iff_ne, ne_eq]
  omega

/-- What `CopyBuffer` does to the state: three calls are made, and the device has run the
one copy region. -/
theorem CopyBuffer_spec (w : World) (p s d n : Nat) :
    (CopyBuffer w p s d n).buffers = w.buffers ∧
    (CopyBuffer w p s d n).bindings = w.bindings ∧
    (CopyBuffer w p s d n).commandBuffers = w.commandBuffers ∧
    (CopyBuffer w p s d n).trace = w.trace ++
      [Call.beginSingleTimeCommands p w.freshHandle,
       Call.vkCmdCopyBuffer w.freshHandle s d [⟨0, 0, n⟩],
       Call.endSingleTimeCommands p w.freshHandle] ∧
    (CopyBuffer w p s d n).memories = (w.copyRegion s d ⟨0, 0, n⟩).memories := by
  have hfind : (w.commandBuffers ++
      [(⟨w.freshHandle, [⟨s, d, [⟨0, 0, n⟩]⟩]⟩ : CommandBufferObject)]).find?
      (fun c => c.handle == w.freshHandle) = some ⟨w.freshHandle, [⟨s, d, [⟨0, 0, n⟩]⟩]⟩ := by
    apply find?_append_fresh
    · intro c hc
      have := commandBuffer_lt_freshHandle hc
      simp only [beq_eq_false_iff_ne, ne_eq]
      omega
    · simp
  simp only [CopyBuffer, beginSingleTimeCommands, vkCmdCopyBuffer, endSingleTimeCommands,
    List.map_append, map_record_fresh, List.map_cons, List.map_nil, if_true, List.nil_append,
    hfind, List.foldl_cons, List.foldl_nil, World.execute]
  refine ⟨?_, ?_, ?_, ?_, ?_⟩
  · exact (copyRegion_sameObjects _ _ _ _).buffers
  · exact (copyRegion_sameObjects _ _ _ _).bindings
  · rw [(copyRegion_sameObjects _ _ _ _).commandBuffers]
    simp [List.filter_append, filter_commandBuffers_fresh]
  · rw [(copyRegion_sameObjects _ _ _ _).trace]
    simp
  · apply copyRegion_memories_congr <;> rfl

/-! ## Storage -/

theorem writeAt_eq (bytes : List Nat) (off : Nat) (c : List Nat)
    (h : c.length ≤ bytes.length - off) :
    writeAt bytes off c = bytes.take off ++ c ++ bytes.drop (off + c.length) := by
  unfold writeAt
  rw [List.take_of_length_le h, Nat.min_eq_left h]

theorem writeAt_nil (bytes : List Nat) (off : Nat) : writeAt bytes off [] = bytes := by
  rw [writeAt_eq bytes off [] (Nat.zero_le _)]
  simp

theorem writeAt_self (bytes : List Nat) (off n : Nat) :
    writeAt bytes off ((bytes.drop off).take n) = bytes := by
  have hlen : ((bytes.drop off).take n).length ≤ bytes.length - off := by
    simp only [List.length_take, List.length_drop]
    exact Nat.min_le_right _ _
  rw [writeAt_eq bytes off _ hlen, List.append_assoc]
  have h2 : (bytes.drop off).take n ++ bytes.drop (off + ((bytes.drop off).take n).length)
      = bytes.drop off := by
    rw [← List.drop_drop]
    by_cases hn : n ≤ (bytes.drop off).length
    · rw [List.length_take, Nat.min_eq_left hn, List.take_append_drop]
    · have hn1 : (bytes.drop off).length ≤ n := by omega
      rw [List.take_of_length_le hn1, List.drop_length, List.append_nil]
  rw [h2, List.take_append_drop]

theorem drop_writeAt (bytes : List Nat) (off : Nat) (c : List Nat)
    (h : off + c.length ≤ bytes.length) :
    (writeAt bytes off c).drop off = c ++ bytes.drop (off + c.length) := by
  rw [writeAt_eq bytes off c (by omega), List.append_assoc]
  have hl : (bytes.take off).length = off := by
    rw [List.length_take]; omega
  exact List.drop_left' hl

theorem findMemory_writeMemory (w : World) (k off : Nat) (src : List Nat) (x : Nat) :
    (w.writeMemory k off src).findMemory x = (w.findMemory x).map (fun m =>
      if m.handle = k then { m with bytes := writeAt m.bytes off src } else m) := by
  unfold World.findMemory World.writeMemory
  simp only [List.find?_map]
  congr 2
  funext m
  simp only [Function.comp]
  split <;> rfl

theorem find?_handle_eq {l : List MemoryObject} {x : Nat} {m : MemoryObject}
    (h : l.find? (fun m => m.handle == x) = some m) : m.handle = x ∧ m ∈ l := by
  have h1 := List.find?_some h
  simp only [beq_iff_eq] at h1
  exact ⟨h1, List.mem_of_find?_eq_some h⟩

theorem find?_binding_eq {l : List Binding} {x : Nat} {bd : Binding}
    (h : l.find? (fun b => b.buffer == x) = some bd) : bd.buffer = x ∧ bd ∈ l := by
  have h1 := List.find?_some h
  simp only [beq_iff_eq] at h1
  exact ⟨h1, List.mem_of_find?_eq_some h⟩

theorem eq_of_length_le_one {α : Type} {l : List α} {a b : α} (h : l.length ≤ 1)
    (ha : a ∈ l) (hb : b ∈ l) : a = b := by
  match l, h, ha, hb with
  | [x], _, ha, hb =>
    rw [List.mem_singleton] at ha hb
    rw [ha, hb]
  | _ :: _ :: _, h, _, _ => simp at h

theorem bufferBytes_pos {w : World} {x : Nat} (h : 0 < (w.bufferBytes x).length) :
    ∃ bo bd mo, w.findBuffer x = some bo ∧ w.findBinding x = some bd ∧
      w.findMemory bd.memory = some mo ∧
      w.bufferBytes x = (mo.bytes.drop bd.memoryOffset).take bo.createInfo.size := by
  unfold World.bufferBytes at h ⊢
  split at h
  · rename_i bo bd hbo hbd
    split at h
    · rename_i mo hmo
      refine ⟨bo, bd, mo, hbo, hbd, hmo, ?_⟩
      simp only [hbo, hbd, hmo]
    · simp at h
  · simp at h

theorem writeMemory_nil (w : World) (k off : Nat) :
    (w.writeMemory k off []).memories = w.memories := by
  unfold World.writeMemory
  simp only [writeAt_nil]
  conv => rhs; rw [← List.map_id w.memories]
  apply List.map_congr_left
  intro m _
  split <;> rfl

theorem copyRegion_zero_memories (w : World) (s d : Nat) :
    (w.copyRegion s d ⟨0, 0, 0⟩).memories = w.memories := by
  unfold World.copyRegion World.writeBuffer
  simp only [List.take_zero, List.take_nil]
  split
  · exact writeMemory_nil _ _ _
  · rfl

/-- The bytes seen through a buffer after the device has stored into an allocation. -/
theorem bufferBytes_writeMemory (w : World) (k off : Nat) (src : List Nat) (x : Nat) :
    (w.writeMemory k off src).bufferBytes x =
      match w.findBuffer x, w.findBinding x with
      | some b, some bd =>
        match w.findMemory bd.memory with
        | some m =>
          (((if m.handle = k then writeAt m.bytes off src else m.bytes)).drop
            bd.memoryOffset).take b.createInfo.size
        | none => []
      | _, _ => [] := by
  unfold World.bufferBytes
  have hb : (w.writeMemory k off src).findBuffer x = w.findBuffer x := rfl
  have hbd : (w.writeMemory k off src).findBinding x = w.findBinding x := rfl
  rw [hb, hbd]
  split
  · rename_i bo bd hbo hbd1
    rw [findMemory_writeMemory]
    cases hm : w.findMemory bd.memory with
    | none => simp
    | some m =>
      simp only [Option.map_some']
      split <;> rfl
  · rfl

theorem bufferBytes_copyRegion_dst (w : World) (s d n : Nat) (hn : 0 < n)
    (hs : n ≤ (w.bufferBytes s).length) (hd : n ≤ (w.bufferBytes d).length) :
    ((w.copyRegion s d ⟨0, 0, n⟩).bufferBytes d).take n = (w.bufferBytes s).take n ∧
    ((w.copyRegion s d ⟨0, 0, n⟩).bufferBytes d).drop n = (w.bufferBytes d).drop n := by
  obtain ⟨bo, bd, mo, hbo, hbd, hmo, hbytes⟩ := bufferBytes_pos (lt_of_lt_of_le hn hd)
  have hlen : n ≤ bo.createInfo.size ∧ bd.memoryOffset + n ≤ mo.bytes.length := by
    rw [hbytes, List.length_take, List.length_drop] at hd
    omega
  have hmh : mo.handle = bd.memory := (find?_handle_eq hmo).1
  have hc : ((w.bufferBytes s).take n).length = n := by
    rw [List.length_take]; omega
  have hW : (w.copyRegion s d ⟨0, 0, n⟩).bufferBytes d =
      ((writeAt mo.bytes bd.memoryOffset ((w.bufferBytes s).take n)).drop
        bd.memoryOffset).take bo.createInfo.size := by
    unfold World.copyRegion World.writeBuffer
    simp only [hbd, List.drop_zero, Nat.sub_zero, Nat.add_zero]
    rw [bufferBytes_writeMemory]
    simp only [hbo, hbd, hmo, hmh, if_true]
    have ht : List.take (w.bufferBytes d).length (List.take n (w.bufferBytes s))
        = List.take n (w.bufferBytes s) := List.take_of_length_le (by rw [hc]; exact hd)
    rw [ht]
  rw [hW, drop_writeAt _ _ _ (by omega), hc, hbytes]
  constructor
  · rw [List.take_take, Nat.min_eq_left hlen.1, List.take_append_of_le_length (by omega),
      List.take_of_length_le (by omega)]
  · rw [List.drop_take, List.drop_take, List.drop_append_of_le_length (by omega),
      List.drop_drop]
    have hnil : List.drop n (List.take n (w.bufferBytes s)) = [] :=
      List.drop_eq_nil_of_le (by rw [hc])
    rw [hnil, List.nil_append, Nat.add_comm]

theorem bufferBytes_copyRegion_src (w : World) (s d n : Nat)
    (hinv : AllocationsBoundAtMostOnce w) :
    (w.copyRegion s d ⟨0, 0, n⟩).bufferBytes s = w.bufferBytes s := by
  unfold World.copyRegion World.writeBuffer
  cases hbd : w.findBinding d with
  | none => rfl
  | some bd =>
    simp only [List.drop_zero, Nat.sub_zero, Nat.add_zero]
    rw [bufferBytes_writeMemory]
    cases hbs : w.findBuffer s with
    | none => simp [World.bufferBytes, hbs]
    | some bs =>
      cases hbds : w.findBinding s with
      | none => simp [World.bufferBytes, hbs, hbds]
      | some bds =>
        cases hms : w.findMemory bds.memory with
        | none => simp [World.bufferBytes, hbs, hbds, hms]
        | some ms =>
          have hsrc : w.bufferBytes s
              = (ms.bytes.drop bds.memoryOffset).take bs.createInfo.size := by
            simp [World.bufferBytes, hbs, hbds, hms]
          simp only [hsrc, hms]
          by_cases hk : ms.handle = bd.memory
          · obtain ⟨hmh, hmem⟩ := find?_handle_eq hms
            obtain ⟨-, hbdm⟩ := find?_binding_eq hbd
            obtain ⟨-, hbdsm⟩ := find?_binding_eq hbds
            have heq : bds = bd := by
              apply eq_of_length_le_one (hinv ms hmem)
              · rw [List.mem_filter]
                exact ⟨hbdsm, by simp [hmh]⟩
              · rw [List.mem_filter]
                exact ⟨hbdm, by simp [hk]⟩
            subst heq
            simp only [hk, if_true, List.take_take, writeAt_self]
          · simp only [hk, if_false]

/-! ## Handles across a staged upload -/

theorem freshHandle_congr {w w1 : World}
    (hb : w1.buffers.map (fun b => b.handle) = w.buffers.map (fun b => b.handle))
    (hm : w1.memories.map (fun m => m.handle) = w.memories.map (fun m => m.handle))
    (hbd : w1.bindings = w.bindings) (hc : w1.commandBuffers = w.commandBuffers) :
    w1.freshHandle = w.freshHandle := by
  simp only [World.freshHandle, World.handles, hb, hm, hbd, hc]

theorem foldr_max_le {l : List Nat} {k : Nat} (hle : ∀ x ∈ l, x ≤ k) : l.foldr max 0 ≤ k := by
  induction l with
  | nil => exact Nat.zero_le _
  | cons y ys ih =>
    simp only [List.foldr_cons]
    exact max_le (hle y (List.mem_cons_self _ _))
      (ih (fun x hx => hle x (List.mem_cons_of_mem _ hx)))

theorem foldr_max_eq_of_mem {l : List Nat} {k : Nat} (hmem : k ∈ l) (hle : ∀ x ∈ l, x ≤ k) :
    l.foldr max 0 = k :=
  le_antisymm (foldr_max_le hle) (le_foldr_max hmem)

theorem freshHandle_add_two {w w1 : World}
    (hb : w1.buffers.map (fun b => b.handle)
      = w.buffers.map (fun b => b.handle) ++ [w.freshHandle])
    (hm : w1.memories.map (fun m => m.handle)
      = w.memories.map (fun m => m.handle) ++ [w.freshHandle + 1])
    (hbd : w1.bindings = w.bindings ∨
      w1.bindings = w.bindings ++ [⟨w.freshHandle, w.freshHandle + 1, 0⟩])
    (hc : w1.commandBuffers = w.commandBuffers) :
    w1.freshHandle = w.freshHandle + 2 := by
  have hmem : w.freshHandle + 1 ∈ w1.handles := by
    simp only [World.handles, hm, List.mem_append, List.mem_singleton]
    tauto
  have hsub : ∀ x ∈ w1.handles, x ∈ w.handles ∨ x = w.freshHandle ∨ x = w.freshHandle + 1 := by
    intro x hx
    rcases hbd with hbd | hbd <;>
    · simp only [World.handles, hb, hm, hbd, hc, List.map_append, List.mem_append,
        List.map_cons, List.map_nil, List.mem_singleton] at hx ⊢
      tauto
  have hle : ∀ x ∈ w1.handles, x ≤ w.freshHandle + 1 := by
    intro x hx
    rcases hsub x hx with hold | rfl | rfl
    · exact Nat.le_succ_of_le (Nat.le_of_lt (lt_freshHandle hold))
    · exact Nat.le_succ _
    · exact Nat.le_refl _
  show w1.handles.foldr max 0 + 1 = w.freshHandle + 2
  rw [foldr_max_eq_of_mem hmem hle]

theorem memcpy_freshHandle (w : World) (dst : HostPtr) (src : List Nat) (n : Nat) :
    (memcpy w dst src n).freshHandle = w.freshHandle :=
  freshHandle_congr (by simp) (by simp) (by simp) (by simp)

theorem vmaCreateBuffer_freshHandle {drv : Driver} {w w1 : World} {info : VkBufferCreateInfo}
    {ainfo : VmaAllocationCreateInfo} {b a : Nat} {p : HostPtr}
    (h : vmaCreateBuffer drv w info ainfo = (VkResult.VK_SUCCESS, b, a, p, w1)) :
    w1.freshHandle = w.freshHandle + 2 := by
  obtain ⟨rfl, rfl, -, hb, hm, hbd, hc⟩ := vmaCreateBuffer_success h
  exact freshHandle_add_two (by simp [hb]) (by simp [hm]) (Or.inr hbd) hc

theorem CreateBuffer_freshHandle {drv : Driver} {w w1 : World}
    {allowedUsage size properties b m : Nat}
    (h : CreateBuffer drv w allowedUsage size properties = (Except.ok (b, m), w1)) :
    w1.freshHandle = w.freshHandle + 2 := by
  obtain ⟨-, rfl, rfl, hb, hm, hc, r3, hbd, -⟩ := CreateBuffer_ok h
  refine freshHandle_add_two (by simp [hb]) (by simp [hm]) ?_ hc
  by_cases hr : r3 = VkResult.VK_SUCCESS
  · exact Or.inr (by simp [hbd, hr])
  · exact Or.inl (by simp [hbd, hr])

theorem filter_old_buffers (w : World) (k : Nat) (hk : w.freshHandle ≤ k) :
    w.buffers.filter (fun b => b.handle != k) = w.buffers := by
  rw [List.filter_eq_self]
  intro b hb
  have := buffer_lt_freshHandle hb
  simp only [bne_iff_ne, ne_eq]
  omega

theorem map_handle_filter (l : List MemoryObject) (k : Nat) :
    (l.filter (fun m => m.handle != k)).map (fun m => m.handle)
      = (l.map (fun m => m.handle)).filter (fun h => h != k) := by
  induction l with
  | nil => rfl
  | cons x xs ih =>
    by_cases hx : x.handle = k <;> simp [List.filter_cons, hx, ih]

theorem filter_old_handles (w : World) (k : Nat) (hk : w.freshHandle ≤ k) :
    (w.memories.map (fun m => m.handle)).filter (fun h => h != k)
      = w.memories.map (fun m => m.handle) := by
  rw [List.filter_eq_self]
  intro h hh
  obtain ⟨m0, hm0, rfl⟩ := List.mem_map.mp hh
  have := memory_lt_freshHandle hm0
  simp only [bne_iff_ne, ne_eq]
  omega

/-! ## The staged uploads, when they complete -/

/-- What a completed `createBufferFromDataVMA` has done: the calls it made, in order, and
what is live afterwards. -/
theorem createBufferFromDataVMA_ok {drv : Driver} {w w1 : World} {commandPool : Nat}
    {bufferData : List Nat} {bufferSize bufferUsage buffer alloc : Nat}
    (h : createBufferFromDataVMA drv w commandPool bufferData bufferSize bufferUsage
      = (Except.ok (buffer, alloc), w1)) :
    buffer = w.freshHandle + 2 ∧ alloc = w.freshHandle + 3 ∧
    w1.buffers = w.buffers ++
      [⟨buffer, ⟨VK_STRUCTURE_TYPE_BUFFER_CREATE_INFO, bufferSize,
        bufferUsage ||| VK_BUFFER_USAGE_TRANSFER_DST_BIT, VK_SHARING_MODE_EXCLUSIVE⟩⟩] ∧
    w1.liveMemories = w.liveMemories ++ [alloc] ∧
    w1.trace = w.trace ++
      [Call.vmaCreateBuffer
         ⟨VK_STRUCTURE_TYPE_BUFFER_CREATE_INFO, bufferSize, VK_BUFFER_USAGE_TRANSFER_SRC_BIT,
           VK_SHARING_MODE_EXCLUSIVE⟩
         ⟨VMA_ALLOCATION_CREATE_MAPPED_BIT, VMA_MEMORY_USAGE_CPU_ONLY⟩
         VkResult.VK_SUCCESS w.freshHandle (w.freshHandle + 1),
       Call.memcpy (some (w.freshHandle + 1, 0)) bufferData bufferSize,
       Call.vmaCreateBuffer
         ⟨VK_STRUCTURE_TYPE_BUFFER_CREATE_INFO, bufferSize,
           bufferUsage ||| VK_BUFFER_USAGE_TRANSFER_DST_BIT, VK_SHARING_MODE_EXCLUSIVE⟩
         ⟨0, VMA_MEMORY_USAGE_GPU_ONLY⟩
         VkResult.VK_SUCCESS buffer alloc,
       Call.beginSingleTimeCommands commandPool (w.freshHandle + 4),
       Call.vkCmdCopyBuffer (w.freshHandle + 4) w.freshHandle buffer [⟨0, 0, bufferSize⟩],
       Call.endSingleTimeCommands commandPool (w.freshHandle + 4),
       Call.vmaDestroyBuffer w.freshHandle (w.freshHandle + 1)] := by
  unfold createBufferFromDataVMA at h
  rcases hv1 : vmaCreateBuffer drv w
      ⟨VK_STRUCTURE_TYPE_BUFFER_CREATE_INFO, bufferSize, VK_BUFFER_USAGE_TRANSFER_SRC_BIT,
        VK_SHARING_MODE_EXCLUSIVE⟩
      ⟨VMA_ALLOCATION_CREATE_MAPPED_BIT, VMA_MEMORY_USAGE_CPU_ONLY⟩ with ⟨r1, sb, sa, p1, wa⟩
  simp only [hv1] at h
  rcases hg1 : ERR_GUARD_VULKAN r1 with e | u
  · simp [hg1] at h
  cases ERR_GUARD_VULKAN_ok hg1
  simp only [hg1] at h
  rcases hv2 : vmaCreateBuffer drv (memcpy wa p1 bufferData bufferSize)
      ⟨VK_STRUCTURE_TYPE_BUFFER_CREATE_INFO, bufferSize,
        bufferUsage ||| VK_BUFFER_USAGE_TRANSFER_DST_BIT, VK_SHARING_MODE_EXCLUSIVE⟩
      ⟨0, VMA_MEMORY_USAGE_GPU_ONLY⟩ with ⟨r2, b, a, p2, wc⟩
  simp only [hv2] at h
  rcases hg2 : ERR_GUARD_VULKAN r2 with e | u
  · simp [hg2] at h
  cases ERR_GUARD_VULKAN_ok hg2
  simp only [hg2, beginSingleTimeCommands, Prod.mk.injEq, Except.ok.injEq] at h
  obtain ⟨⟨rfl, rfl⟩, rfl⟩ := h
  have hf1 := vmaCreateBuffer_freshHandle hv1
  have hf2 := vmaCreateBuffer_freshHandle hv2
  rw [memcpy_freshHandle, hf1] at hf2
  obtain ⟨hsb, hsa, hp, hb1, hm1, -, -⟩ := vmaCreateBuffer_success hv1
  obtain ⟨hb, ha, -, hb2, hm2, -, -⟩ := vmaCreateBuffer_success hv2
  rw [memcpy_freshHandle, hf1] at hb ha
  simp [VMA_ALLOCATION_CREATE_MAPPED_BIT] at hp
  subst hsb hsa hp
  have hold := filter_old_buffers w w.freshHandle (Nat.le_refl _)
  refine ⟨hb, ha, ?_, ?_, ?_⟩
  · simp [vmaDestroyBuffer, vkCmdCopyBuffer, hb2, hb1, List.filter_append, hold, hb]
  · simp only [World.liveMemories, vmaDestroyBuffer, map_handle_filter, vkCmdCopyBuffer,
      endSingleTimeCommands_handles, hm2, List.map_append, memcpy_handles, hm1, List.map_cons,
      List.map_nil, List.filter_append, filter_old_handles w (w.freshHandle + 1) (Nat.le_add_right _ _)]
    simp [ha]
  · simp [vmaDestroyBuffer, vkCmdCopyBuffer, vmaCreateBuffer_trace hv1,
      vmaCreateBuffer_trace hv2, hf2]

/-- What a completed `createVertexandIndexBuffersVMA` has done: the calls it made, in
order, and what is live afterwards. -/
theorem createVertexandIndexBuffersVMA_ok {drv : Driver} {w w1 : World}
    {commandPool sizeofVertex : Nat} {vertices : List (List Nat)} {indices : List Nat}
    {vertexBuffer indexBuffer vertexAlloc indexAlloc : Nat}
    (h : createVertexandIndexBuffersVMA drv w commandPool sizeofVertex vertices indices
      = (Except.ok (vertexBuffer, indexBuffer, vertexAlloc, indexAlloc), w1)) :
    vertexBuffer = w.freshHandle + 2 ∧ vertexAlloc = w.freshHandle + 3 ∧
    indexBuffer = w.freshHandle + 6 ∧ indexAlloc = w.freshHandle + 7 ∧
    w1.buffers = w.buffers ++
      [⟨vertexBuffer, ⟨VK_STRUCTURE_TYPE_BUFFER_CREATE_INFO,
          toUint64 (vertices.length * sizeofVertex),
          VK_BUFFER_USAGE_TRANSFER_DST_BIT ||| VK_BUFFER_USAGE_VERTEX_BUFFER_BIT,
          VK_SHARING_MODE_EXCLUSIVE⟩⟩,
       ⟨indexBuffer, ⟨VK_STRUCTURE_TYPE_BUFFER_CREATE_INFO, toUint64 (indices.length * 4),
          VK_BUFFER_USAGE_TRANSFER_DST_BIT ||| VK_BUFFER_USAGE_VERTEX_BUFFER_BIT,
          VK_SHARING_MODE_EXCLUSIVE⟩⟩] ∧
    w1.liveMemories = w.liveMemories ++ [vertexAlloc, indexAlloc] ∧
    w1.trace = w.trace ++
      [Call.vmaCreateBuffer
         ⟨VK_STRUCTURE_TYPE_BUFFER_CREATE_INFO, toUint64 (vertices.length * sizeofVertex),
           VK_BUFFER_USAGE_TRANSFER_SRC_BIT, VK_SHARING_MODE_EXCLUSIVE⟩
         ⟨VMA_ALLOCATION_CREATE_MAPPED_BIT, VMA_MEMORY_USAGE_CPU_ONLY⟩
         VkResult.VK_SUCCESS w.freshHandle (w.freshHandle + 1),
       Call.memcpy (some (w.freshHandle + 1, 0)) vertices.flatten
         (toUint64 (vertices.length * sizeofVertex)),
       Call.vmaCreateBuffer
         ⟨VK_STRUCTURE_TYPE_BUFFER_CREATE_INFO, toUint64 (vertices.length * sizeofVertex),
           VK_BUFFER_USAGE_TRANSFER_DST_BIT ||| VK_BUFFER_USAGE_VERTEX_BUFFER_BIT,
           VK_SHARING_MODE_EXCLUSIVE⟩
         ⟨0, VMA_MEMORY_USAGE_GPU_ONLY⟩
         VkResult.VK_SUCCESS vertexBuffer vertexAlloc,
       Call.vmaCreateBuffer
         ⟨VK_STRUCTURE_TYPE_BUFFER_CREATE_INFO, toUint64 (indices.length * 4),
           VK_BUFFER_USAGE_TRANSFER_SRC_BIT, VK_SHARING_MODE_EXCLUSIVE⟩
         ⟨VMA_ALLOCATION_CREATE_MAPPED_BIT, VMA_MEMORY_USAGE_CPU_ONLY⟩
         VkResult.VK_SUCCESS (w.freshHandle + 4) (w.freshHandle + 5),
       Call.memcpy (some (w.freshHandle + 5, 0)) (indices.map uint32Bytes).flatten
         (toUint64 (indices.length * 4)),
       Call.vmaCreateBuffer
         ⟨VK_STRUCTURE_TYPE_BUFFER_CREATE_INFO, toUint64 (indices.length * 4),
           VK_BUFFER_USAGE_TRANSFER_DST_BIT ||| VK_BUFFER_USAGE_VERTEX_BUFFER_BIT,
           VK_SHARING_MODE_EXCLUSIVE⟩
         ⟨0, VMA_MEMORY_USAGE_GPU_ONLY⟩
         VkResult.VK_SUCCESS indexBuffer indexAlloc,
       Call.beginSingleTimeCommands commandPool (w.freshHandle + 8),
       Call.vkCmdCopyBuffer (w.freshHandle + 8) w.freshHandle vertexBuffer
         [⟨0, 0, toUint64 (vertices.length * sizeofVertex)⟩],
       Call.vkCmdCopyBuffer (w.freshHandle + 8) (w.freshHandle + 4) indexBuffer
         [⟨0, 0, toUint64 (indices.length * 4)⟩],
       Call.endSingleTimeCommands commandPool (w.freshHandle + 8),
       Call.vmaDestroyBuffer (w.freshHandle + 4) (w.freshHandle + 5),
       Call.vmaDestroyBuffer w.freshHandle (w.freshHandle + 1)] := by
  unfold createVertexandIndexBuffersVMA at h
  rcases hv1 : vmaCreateBuffer drv w
      ⟨VK_STRUCTURE_TYPE_BUFFER_CREATE_INFO, toUint64 (vertices.length * sizeofVertex),
        VK_BUFFER_USAGE_TRANSFER_SRC_BIT, VK_SHARING_MODE_EXCLUSIVE⟩
      ⟨VMA_ALLOCATION_CREATE_MAPPED_BIT, VMA_MEMORY_USAGE_CPU_ONLY⟩ with ⟨r1, svb, sva, p1, wa⟩
  simp only [hv1] at h
  rcases hg1 : ERR_GUARD_VULKAN r1 with e | u
  · simp [hg1] at h
  have hr1 := ERR_GUARD_VULKAN_ok hg1
  rw [hr1] at hv1
  simp only [hg1] at h
  rcases hv2 : vmaCreateBuffer drv
      (memcpy wa p1 vertices.flatten (toUint64 (vertices.length * sizeofVertex)))
      ⟨VK_STRUCTURE_TYPE_BUFFER_CREATE_INFO, toUint64 (vertices.length * sizeofVertex),
        VK_BUFFER_USAGE_TRANSFER_DST_BIT ||| VK_BUFFER_USAGE_VERTEX_BUFFER_BIT,
        VK_SHARING_MODE_EXCLUSIVE⟩
      ⟨0, VMA_MEMORY_USAGE_GPU_ONLY⟩ with ⟨r2, vb, va, p2, wb⟩
  simp only [hv2] at h
  rcases hg2 : ERR_GUARD_VULKAN r2 with e | u
  · simp [hg2] at h
  have hr2 := ERR_GUARD_VULKAN_ok hg2
  rw [hr2] at hv2
  simp only [hg2] at h
  rcases hv3 : vmaCreateBuffer drv wb
      ⟨VK_STRUCTURE_TYPE_BUFFER_CREATE_INFO, toUint64 (indices.length * 4),
        VK_BUFFER_USAGE_TRANSFER_SRC_BIT, VK_SHARING_MODE_EXCLUSIVE⟩
      ⟨VMA_ALLOCATION_CREATE_MAPPED_BIT, VMA_MEMORY_USAGE_CPU_ONLY⟩ with ⟨r3, sib, sia, p3, wc⟩
  simp only [hv3] at h
  rcases hg3 : ERR_GUARD_VULKAN r3 with e | u
  · simp [hg3] at h
  have hr3 := ERR_GUARD_VULKAN_ok hg3
  rw [hr3] at hv3
  simp only [hg3] at h
  rcases hv4 : vmaCreateBuffer drv
      (memcpy wc p3 (indices.map uint32Bytes).flatten (toUint64 (indices.length * 4)))
      ⟨VK_STRUCTURE_TYPE_BUFFER_CREATE_INFO, toUint64 (indices.length * 4),
        VK_BUFFER_USAGE_TRANSFER_DST_BIT ||| VK_BUFFER_USAGE_VERTEX_BUFFER_BIT,
        VK_SHARING_MODE_EXCLUSIVE⟩
      ⟨0, VMA_MEMORY_USAGE_GPU_ONLY⟩ with ⟨r4, ib, ia, p4, wd⟩
  simp only [hv4] at h
  rcases hg4 : ERR_GUARD_VULKAN r4 with e | u
  · simp [hg4] at h
  have hr4 := ERR_GUARD_VULKAN_ok hg4
  rw [hr4] at hv4
  simp only [hg4, beginSingleTimeCommands, Prod.mk.injEq, Except.ok.injEq] at h
  obtain ⟨⟨e1, e2, e3, e4⟩, e5⟩ := h
  subst e1 e2 e3 e4 e5
  clear hg1 hg2 hg3 hg4
  have hf1 := vmaCreateBuffer_freshHandle hv1
  have hf2 := vmaCreateBuffer_freshHandle hv2
  have hf3 := vmaCreateBuffer_freshHandle hv3
  have hf4 := vmaCreateBuffer_freshHandle hv4
  rw [memcpy_freshHandle, hf1] at hf2
  rw [hf2] at hf3
  rw [memcpy_freshHandle, hf3] at hf4
  obtain ⟨hsvb, hsva, hp1, hb1, hm1, -, -⟩ := vmaCreateBuffer_success hv1
  obtain ⟨hvb, hva, -, hb2, hm2, -, -⟩ := vmaCreateBuffer_success hv2
  obtain ⟨hsib, hsia, hp3, hb3, hm3, -, -⟩ := vmaCreateBuffer_success hv3
  obtain ⟨hib, hia, -, hb4, hm4, -, -⟩ := vmaCreateBuffer_success hv4
  have ht1 := vmaCreateBuffer_trace hv1
  have ht2 := vmaCreateBuffer_trace hv2
  have ht3 := vmaCreateBuffer_trace hv3
  have ht4 := vmaCreateBuffer_trace hv4
  clear hv1 hv2 hv3 hv4
  rw [memcpy_freshHandle, hf1] at hvb hva
  rw [hf2] at hsib hsia
  rw [memcpy_freshHandle, hf3] at hib hia
  have hp1' : p1 = some (sva, 0) := by simpa [VMA_ALLOCATION_CREATE_MAPPED_BIT] using hp1
  have hp3' : p3 = some (sia, 0) := by simpa [VMA_ALLOCATION_CREATE_MAPPED_BIT] using hp3
  have hvb1 : vb = w.freshHandle + 2 := hvb
  have hva1 : va = w.freshHandle + 3 := hva
  have hsib1 : sib = w.freshHandle + 4 := hsib
  have hsia1 : sia = w.freshHandle + 5 := hsia
  have hib1 : ib = w.freshHandle + 6 := hib
  have hia1 : ia = w.freshHandle + 7 := hia
  have hf41 : wd.freshHandle = w.freshHandle + 8 := hf4
  have hold0 := filter_old_buffers w w.freshHandle (Nat.le_refl _)
  have hold4 := filter_old_buffers w (w.freshHandle + 4) (Nat.le_add_right _ _)
  refine ⟨hvb1, hva1, hib1, hia1, ?_, ?_, ?_⟩
  · simp [vmaDestroyBuffer, vkCmdCopyBuffer, hb4, hb3, hb2, hb1, List.filter_append, hold0,
      hold4, hsvb, hvb1, hsib1, hib1]
  · simp only [World.liveMemories, vmaDestroyBuffer, map_handle_filter, vkCmdCopyBuffer,
      endSingleTimeCommands_handles, hm4, hm3, hm2, List.map_append, memcpy_handles, hm1,
      List.map_cons, List.map_nil, List.filter_append, hsva, hva1, hsia1, hia1,
      filter_old_handles w (w.freshHandle + 1) (Nat.le_add_right _ _),
      filter_old_handles w (w.freshHandle + 5) (Nat.le_add_right _ _)]
    simp
  · simp [vmaDestroyBuffer, vkCmdCopyBuffer, ht1, ht2, ht3, ht4, hf41, hp1', hp3', hsvb, hsva,
      hvb1, hva1, hsib1, hsia1, hib1, hia1]

theorem vkMapMemory_spec (drv : Driver) (w : World) (m o s fl : Nat) :
    (vkMapMemory drv w m o s fl).2.2
      = w.log (Call.vkMapMemory m o s fl (vkMapMemory drv w m o s fl).1) ∧
    (vkMapMemory drv w m o s fl).2.1
      = (if (vkMapMemory drv w m o s fl).1 = VkResult.VK_SUCCESS then some (m, o) else none) := by
  unfold vkMapMemory
  by_cases hr : drv.mapMemoryResult w m o s = VkResult.VK_SUCCESS <;> simp [hr]

theorem CreateBuffer_ok_created {drv : Driver} {w w1 : World}
    {allowedUsage size properties b m : Nat}
    (h : CreateBuffer drv w allowedUsage size properties = (Except.ok (b, m), w1)) :
    ∃ cs : List Call, w1.trace = w.trace ++ cs ∧
      cs.filterMap Call.createdBuffer = [b] ∧ cs.filterMap Call.createdMemory = [m] := by
  obtain ⟨-, -, -, -, -, -, r3, -, ht⟩ := CreateBuffer_ok h
  exact ⟨_, ht, by simp [Call.createdBuffer], by simp [Call.createdMemory]⟩

/-- What a completed `CreateBufferFromData` has done: the calls it made, in order, and
what is live afterwards.  The staging buffer is created with `TRANSFER_SRC` as its size
and the 32-bit `bufferSize` as its usage, the destination buffer with
`TRANSFER_DST | bufferUsage` as its size and the 32-bit `bufferSize` as its usage. -/
theorem CreateBufferFromData_ok {drv : Driver} {w w1 : World} {commandPool : Nat}
    {bufferData : List Nat} {bufferSize bufferUsage buffer memory : Nat}
    (h : CreateBufferFromData drv w commandPool bufferData bufferSize bufferUsage
      = (Except.ok (buffer, memory), w1)) :
    buffer = w.freshHandle + 2 ∧ memory = w.freshHandle + 3 ∧
    w1.buffers = w.buffers ++
      [⟨buffer, ⟨VK_STRUCTURE_TYPE_BUFFER_CREATE_INFO,
        VK_BUFFER_USAGE_TRANSFER_DST_BIT ||| bufferUsage, toUint32 bufferSize,
        VK_SHARING_MODE_EXCLUSIVE⟩⟩] ∧
    w1.liveMemories = w.liveMemories ++ [memory] ∧
    ∃ (cs1 cs2 : List Call) (rmap : VkResult) (data : HostPtr),
      cs1.filterMap Call.createdBuffer = [w.freshHandle] ∧
      cs1.filterMap Call.createdMemory = [w.freshHandle + 1] ∧
      cs2.filterMap Call.createdBuffer = [buffer] ∧
      cs2.filterMap Call.createdMemory = [memory] ∧
      w1.trace = w.trace ++ cs1 ++
        [Call.vkMapMemory (w.freshHandle + 1) 0 bufferSize 0 rmap,
         Call.memcpy data bufferData bufferSize,
         Call.vkUnmapMemory (w.freshHandle + 1)] ++ cs2 ++
        [Call.beginSingleTimeCommands commandPool (w.freshHandle + 4),
         Call.vkCmdCopyBuffer (w.freshHandle + 4) w.freshHandle buffer [⟨0, 0, bufferSize⟩],
         Call.endSingleTimeCommands commandPool (w.freshHandle + 4),
         Call.vkDestroyBuffer w.freshHandle,
         Call.vkFreeMemory (w.freshHandle + 1)] := by
  unfold CreateBufferFromData at h
  rcases hc1 : CreateBuffer drv w (toUint32 bufferSize) VK_BUFFER_USAGE_TRANSFER_SRC_BIT
      (VK_MEMORY_PROPERTY_HOST_VISIBLE_BIT ||| VK_MEMORY_PROPERTY_HOST_COHERENT_BIT)
    with ⟨res1, wa⟩
  rcases res1 with e | ⟨sb, sm⟩
  · simp [hc1] at h
  simp only [hc1] at h
  obtain ⟨hmw, hmp⟩ := vkMapMemory_spec drv wa sm 0 bufferSize 0
  rcases hmap : vkMapMemory drv wa sm 0 bufferSize 0 with ⟨rmap, data, wm⟩
  rw [hmap] at hmw hmp
  simp only at hmw hmp
  simp only [hmap] at h
  rcases hc2 : CreateBuffer drv (vkUnmapMemory (memcpy wm data bufferData bufferSize) sm)
      (toUint32 bufferSize) (VK_BUFFER_USAGE_TRANSFER_DST_BIT ||| bufferUsage)
      VK_MEMORY_PROPERTY_DEVICE_LOCAL_BIT with ⟨res2, wb⟩
  rcases res2 with e | ⟨b, m⟩
  · simp [hc2] at h
  simp only [hc2, Prod.mk.injEq, Except.ok.injEq] at h
  obtain ⟨⟨rfl, rfl⟩, rfl⟩ := h
  have hf1 := CreateBuffer_freshHandle hc1
  have hf2 := CreateBuffer_freshHandle hc2
  obtain ⟨-, hsb, hsm, hb1, hm1, -, -, -, -⟩ := CreateBuffer_ok hc1
  obtain ⟨-, hb, hm, hb2, hm2, -, -, -, -⟩ := CreateBuffer_ok hc2
  obtain ⟨cs1, ht1, hcb1, hcm1⟩ := CreateBuffer_ok_created hc1
  obtain ⟨cs2, ht2, hcb2, hcm2⟩ := CreateBuffer_ok_created hc2
  have hfu : (vkUnmapMemory (memcpy wm data bufferData bufferSize) sm).freshHandle
      = w.freshHandle + 2 := by
    rw [← hf1]
    apply freshHandle_congr <;> simp [vkUnmapMemory, hmw]
  rw [hfu] at hb hm hf2
  have hb1' : b = w.freshHandle + 2 := hb
  have hm1' : m = w.freshHandle + 3 := hm
  clear hb hm
  subst hsb hsm hb1' hm1'
  obtain ⟨hcb, -, -, hct, hcm⟩ := CopyBuffer_spec wb commandPool w.freshHandle
    (w.freshHandle + 2) bufferSize
  have hcmh : (CopyBuffer wb commandPool w.freshHandle (w.freshHandle + 2)
      bufferSize).memories.map (fun x => x.handle) = wb.memories.map (fun x => x.handle) := by
    rw [hcm]
    exact (copyRegion_sameObjects _ _ _ _).memoryHandles
  have hold := filter_old_buffers w w.freshHandle (Nat.le_refl _)
  refine ⟨rfl, rfl, ?_, ?_, cs1, cs2, rmap, data, hcb1, hcm1, hcb2, hcm2, ?_⟩
  · simp [vkFreeMemory, vkDestroyBuffer, hcb, hb2, vkUnmapMemory, hmw, hb1, List.filter_append,
      hold]
  · simp only [World.liveMemories, vkFreeMemory, vkDestroyBuffer, map_handle_filter, hcmh, hm2,
      List.map_append, vkUnmapMemory, log_memories, memcpy_handles, hmw, hm1, List.map_cons,
      List.map_nil, List.filter_append, filter_old_handles w (w.freshHandle + 1) (Nat.le_add_right _ _)]
    simp
  · simp only [vkFreeMemory, vkDestroyBuffer, hct, ht2, vkUnmapMemory, log_trace, memcpy_trace,
      hmw, ht1, hf2]
    simp only [List.append_assoc, List.cons_append, List.nil_append]

theorem not_live_buffer_of_fresh (w : World) (k : Nat) (hk : w.freshHandle ≤ k) :
    k ∉ w.liveBuffers := by
  intro hmem
  obtain ⟨b, hb, rfl⟩ := List.mem_map.mp hmem
  have := buffer_lt_freshHandle hb
  omega

theorem not_live_memory_of_fresh (w : World) (k : Nat) (hk : w.freshHandle ≤ k) :
    k ∉ w.liveMemories := by
  intro hmem
  obtain ⟨m, hm, rfl⟩ := List.mem_map.mp hmem
  have := memory_lt_freshHandle hm
  omega

theorem find?_old_buffer_none (w : World) (k : Nat) (hk : w.freshHandle ≤ k) :
    w.buffers.find? (fun b => b.handle == k) = none := by
  rw [List.find?_eq_none]
  intro b hb
  have := buffer_lt_freshHandle hb
  simp only [beq_iff_eq]
  omega

/-! ## Further facts on the buffers created -/

theorem bufferBytes_length_le {w : World} {x : Nat} {bo : BufferObject}
    (h : w.findBuffer x = some bo) : (w.bufferBytes x).length ≤ bo.createInfo.size := by
  unfold World.bufferBytes
  rw [h]
  split
  · rename_i b bd hb hbd
    cases hb
    split
    · simp only [List.length_take]; exact Nat.min_le_left _ _
    · exact Nat.zero_le _
  · exact Nat.zero_le _

/-- The destination buffer of a completed `CreateBufferFromData` shows at most
`TRANSFER_DST | bufferUsage` bytes, whatever `bufferSize` is. -/
theorem CreateBufferFromData_destination_length {drv : Driver} {w w1 : World}
    {commandPool : Nat} {bufferData : List Nat} {bufferSize bufferUsage buffer memory : Nat}
    (h : CreateBufferFromData drv w commandPool bufferData bufferSize bufferUsage
      = (Except.ok (buffer, memory), w1)) :
    (w1.bufferBytes buffer).length ≤ VK_BUFFER_USAGE_TRANSFER_DST_BIT ||| bufferUsage := by
  obtain ⟨rfl, -, hb, -⟩ := CreateBufferFromData_ok h
  have hfind : w1.findBuffer (w.freshHandle + 2) = some ⟨w.freshHandle + 2,
      ⟨VK_STRUCTURE_TYPE_BUFFER_CREATE_INFO, VK_BUFFER_USAGE_TRANSFER_DST_BIT ||| bufferUsage,
        toUint32 bufferSize, VK_SHARING_MODE_EXCLUSIVE⟩⟩ := by
    simp [World.findBuffer, hb, List.find?_append,
      find?_old_buffer_none w (w.freshHandle + 2) (by omega)]
  exact bufferBytes_length_le hfind

/-- Whatever the outcome of `CreateBuffer`, no allocation gets bound to two buffers. -/
theorem CreateBuffer_preserves_AllocationsBoundAtMostOnce {drv : Driver} {w w1 : World}
    {allowedUsage size properties : Nat} {res : Except Error (Nat × Nat)}
    (hinv : AllocationsBoundAtMostOnce w)
    (h : CreateBuffer drv w allowedUsage size properties = (res, w1)) :
    AllocationsBoundAtMostOnce w1 := by
  rcases res with e | ⟨b, m⟩
  · obtain ⟨hm, hbd, -, -⟩ := CreateBuffer_error h
    unfold AllocationsBoundAtMostOnce
    rw [hm, hbd]
    exact hinv
  · obtain ⟨-, rfl, rfl, -, hm, -, r3, hbd, -⟩ := CreateBuffer_ok h
    intro x hx
    rw [hm, List.mem_append, List.mem_singleton] at hx
    rw [hbd, List.filter_append]
    rcases hx with hx | rfl
    · have hlt := memory_lt_freshHandle hx
      have hne : (w.freshHandle + 1 == x.handle) = false := by
        simp only [beq_eq_false_iff_ne, ne_eq]; omega
      have hold := hinv x hx
      by_cases hr : r3 = VkResult.VK_SUCCESS
      · simpa [hr, List.filter, hne] using hold
      · simpa [hr] using hold
    · by_cases hr : r3 = VkResult.VK_SUCCESS <;> simp [hr, filter_memory_fresh]

theorem find?_old_memory_none (w : World) (k : Nat) (hk : w.freshHandle ≤ k) :
    w.memories.find? (fun m => m.handle == k) = none := by
  rw [List.find?_eq_none]
  intro m hm
  have := memory_lt_freshHandle hm
  simp only [beq_iff_eq]
  omega

theorem find?_old_binding_none (w : World) (k : Nat) (hk : w.freshHandle ≤ k) :
    w.bindings.find? (fun b => b.buffer == k) = none := by
  rw [List.find?_eq_none]
  intro b hb
  have := binding_buffer_lt_freshHandle hb
  simp only [beq_iff_eq]
  omega

/-- What holds after every completed `CreateBuffer`: the buffer returned has the given
size and usage and exclusive sharing; the allocation returned has the size the device
requires for it, which is at least the size asked for when the device reports so, and
the memory type index the resolver gives, of the type mask and with the property flags
asked for when the resolver is right; `vkBindBufferMemory` has been called on the two
with offset 0, and the allocation is bound to the buffer, at offset 0, exactly when that
call has reported success. -/
theorem CreateBuffer_postcondition {drv : Driver} {w w1 : World}
    {allowedUsage size properties buffer bufferMemory : Nat}
    (h : CreateBuffer drv w allowedUsage size properties
      = (Except.ok (buffer, bufferMemory), w1))
    (hreq : size ≤ (drv.memoryRequirements ⟨VK_STRUCTURE_TYPE_BUFFER_CREATE_INFO, size,
      allowedUsage, VK_SHARING_MODE_EXCLUSIVE⟩).size)
    (hmask : (drv.memoryRequirements ⟨VK_STRUCTURE_TYPE_BUFFER_CREATE_INFO, size,
      allowedUsage, VK_SHARING_MODE_EXCLUSIVE⟩).memoryTypeBits.testBit
        (drv.GetMemoryTypeIndex (drv.memoryRequirements ⟨VK_STRUCTURE_TYPE_BUFFER_CREATE_INFO,
          size, allowedUsage, VK_SHARING_MODE_EXCLUSIVE⟩).memoryTypeBits properties) = true)
    (hflags : drv.memoryTypeFlags
        (drv.GetMemoryTypeIndex (drv.memoryRequirements ⟨VK_STRUCTURE_TYPE_BUFFER_CREATE_INFO,
          size, allowedUsage, VK_SHARING_MODE_EXCLUSIVE⟩).memoryTypeBits properties)
        &&& properties = properties) :
    w1.findBuffer buffer = some ⟨buffer, ⟨VK_STRUCTURE_TYPE_BUFFER_CREATE_INFO, size,
      allowedUsage, VK_SHARING_MODE_EXCLUSIVE⟩⟩ ∧
    (∃ mo, w1.findMemory bufferMemory = some mo ∧
      mo.allocateInfo.allocationSize = (drv.memoryRequirements
        ⟨VK_STRUCTURE_TYPE_BUFFER_CREATE_INFO, size, allowedUsage,
          VK_SHARING_MODE_EXCLUSIVE⟩).size ∧
      size ≤ mo.allocateInfo.allocationSize ∧
      mo.bytes.length = mo.allocateInfo.allocationSize ∧
      mo.allocateInfo.memoryTypeIndex = drv.GetMemoryTypeIndex (drv.memoryRequirements
        ⟨VK_STRUCTURE_TYPE_BUFFER_CREATE_INFO, size, allowedUsage,
          VK_SHARING_MODE_EXCLUSIVE⟩).memoryTypeBits properties ∧
      (drv.memoryRequirements ⟨VK_STRUCTURE_TYPE_BUFFER_CREATE_INFO, size, allowedUsage,
        VK_SHARING_MODE_EXCLUSIVE⟩).memoryTypeBits.testBit mo.allocateInfo.memoryTypeIndex
        = true ∧
      drv.memoryTypeFlags mo.allocateInfo.memoryTypeIndex &&& properties = properties) ∧
    ∃ r3 : VkResult,
      (newCalls w w1).getLast? = some (Call.vkBindBufferMemory buffer bufferMemory 0 r3) ∧
      (r3 = VkResult.VK_SUCCESS → w1.findBinding buffer = some ⟨buffer, bufferMemory, 0⟩) ∧
      (r3 ≠ VkResult.VK_SUCCESS → w1.findBinding buffer = none) := by
  obtain ⟨-, rfl, rfl, hb, hm, -, r3, hbd, ht⟩ := CreateBuffer_ok h
  refine ⟨?_, ⟨⟨w.freshHandle + 1, ⟨VK_STRUCTURE_TYPE_MEMORY_ALLOCATE_INFO,
      (drv.memoryRequirements ⟨VK_STRUCTURE_TYPE_BUFFER_CREATE_INFO, size, allowedUsage,
        VK_SHARING_MODE_EXCLUSIVE⟩).size,
      drv.GetMemoryTypeIndex (drv.memoryRequirements ⟨VK_STRUCTURE_TYPE_BUFFER_CREATE_INFO,
        size, allowedUsage, VK_SHARING_MODE_EXCLUSIVE⟩).memoryTypeBits properties⟩,
      List.replicate (drv.memoryRequirements ⟨VK_STRUCTURE_TYPE_BUFFER_CREATE_INFO, size,
        allowedUsage, VK_SHARING_MODE_EXCLUSIVE⟩).size 0, none⟩,
      ?_, rfl, hreq, ?_, rfl, hmask, hflags⟩, r3, ?_, ?_, ?_⟩
  · simp [World.findBuffer, hb, List.find?_append,
      find?_old_buffer_none w w.freshHandle (Nat.le_refl _)]
  · simp [World.findMemory, hm, List.find?_append,
      find?_old_memory_none w (w.freshHandle + 1) (Nat.le_add_right _ _)]
  · simp
  · rw [newCalls_append _ _ _ ht]
    simp
  · intro hr
    simp [World.findBinding, hbd, hr, List.find?_append,
      find?_old_binding_none w w.freshHandle (Nat.le_refl _)]
  · intro hr
    simp [World.findBinding, hbd, hr,
      find?_old_binding_none w w.freshHandle (Nat.le_refl _)]

/-- What a completed `createBufferVMA` has done: the one call it made, and the buffer, the
allocation and the binding it has left. -/
theorem createBufferVMA_ok {drv : Driver} {w w1 : World} {allowedUsage size buffer alloc : Nat}
    (h : createBufferVMA drv w allowedUsage size = (Except.ok (buffer, alloc), w1)) :
    buffer = w.freshHandle ∧ alloc = w.freshHandle + 1 ∧
    w1.buffers = w.buffers ++
      [⟨buffer, ⟨VK_STRUCTURE_TYPE_BUFFER_CREATE_INFO, size, allowedUsage,
        VK_SHARING_MODE_EXCLUSIVE⟩⟩] ∧
    w1.memories = w.memories ++
      [⟨alloc, ⟨VK_STRUCTURE_TYPE_MEMORY_ALLOCATE_INFO,
          (drv.memoryRequirements ⟨VK_STRUCTURE_TYPE_BUFFER_CREATE_INFO, size, allowedUsage,
            VK_SHARING_MODE_EXCLUSIVE⟩).size,
          drv.vmaMemoryTypeIndex (drv.memoryRequirements ⟨VK_STRUCTURE_TYPE_BUFFER_CREATE_INFO,
            size, allowedUsage, VK_SHARING_MODE_EXCLUSIVE⟩) ⟨0, VMA_MEMORY_USAGE_GPU_ONLY⟩⟩,
        List.replicate (drv.memoryRequirements ⟨VK_STRUCTURE_TYPE_BUFFER_CREATE_INFO, size,
          allowedUsage, VK_SHARING_MODE_EXCLUSIVE⟩).size 0,
        some ⟨0, VMA_MEMORY_USAGE_GPU_ONLY⟩⟩] ∧
    w1.bindings = w.bindings ++ [⟨buffer, alloc, 0⟩] ∧
    w1.trace = w.trace ++
      [Call.vmaCreateBuffer
        ⟨VK_STRUCTURE_TYPE_BUFFER_CREATE_INFO, size, allowedUsage, VK_SHARING_MODE_EXCLUSIVE⟩
        ⟨0, VMA_MEMORY_USAGE_GPU_ONLY⟩ VkResult.VK_SUCCESS buffer alloc] := by
  unfold createBufferVMA at h
  rcases hv : vmaCreateBuffer drv w
    ⟨VK_STRUCTURE_TYPE_BUFFER_CREATE_INFO, size, allowedUsage, VK_SHARING_MODE_EXCLUSIVE⟩
    ⟨0, VMA_MEMORY_USAGE_GPU_ONLY⟩ with ⟨r, b, a, p, wa⟩
  simp only [hv] at h
  rcases hg : ERR_GUARD_VULKAN r with e | u
  · simp [hg] at h
  have hr := ERR_GUARD_VULKAN_ok hg
  rw [hr] at hv
  simp only [hg, Prod.mk.injEq, Except.ok.injEq] at h
  obtain ⟨⟨e1, e2⟩, e3⟩ := h
  subst e1 e2 e3
  obtain ⟨hb, ha, -, hbs, hms, hbd, -⟩ := vmaCreateBuffer_success hv
  exact ⟨hb, ha, hbs, hms, hbd, vmaCreateBuffer_trace hv⟩

/-! ## The claims -/

set_option maxRecDepth 100000

/-- C1: the call `CreateBufferFromData(device, pool, data, 2, VERTEX_BUFFER)` creates its
staging buffer with size `TRANSFER_SRC` (1 byte) and usage 2 (the byte size), and its
destination buffer with size `TRANSFER_DST | VERTEX_BUFFER` (130 bytes) and usage 2; with
`bufferSize = 2 ^ 32 + 2` the same usage 2 is passed, the upper 32 bits being cut off. -/
theorem CreateBufferFromData_transposes_size_and_usage :
    (newCalls emptyWorld (CreateBufferFromData okDriver emptyWorld 9 [7, 9] 2
        VK_BUFFER_USAGE_VERTEX_BUFFER_BIT).2).filterMap Call.bufferCreateInfo
      = [{ sType := VK_STRUCTURE_TYPE_BUFFER_CREATE_INFO,
           size := VK_BUFFER_USAGE_TRANSFER_SRC_BIT, usage := 2,
           sharingMode := VK_SHARING_MODE_EXCLUSIVE },
         { sType := VK_STRUCTURE_TYPE_BUFFER_CREATE_INFO,
           size := VK_BUFFER_USAGE_TRANSFER_DST_BIT ||| VK_BUFFER_USAGE_VERTEX_BUFFER_BIT,
           usage := 2, sharingMode := VK_SHARING_MODE_EXCLUSIVE }] ∧
    (newCalls emptyWorld (CreateBufferFromData okDriver emptyWorld 9 [7, 9] (2 ^ 32 + 2)
        VK_BUFFER_USAGE_VERTEX_BUFFER_BIT).2).filterMap Call.bufferCreateInfo
      = [{ sType := VK_STRUCTURE_TYPE_BUFFER_CREATE_INFO,
           size := VK_BUFFER_USAGE_TRANSFER_SRC_BIT, usage := 2,
           sharingMode := VK_SHARING_MODE_EXCLUSIVE },
         { sType := VK_STRUCTURE_TYPE_BUFFER_CREATE_INFO,
           size := VK_BUFFER_USAGE_TRANSFER_DST_BIT ||| VK_BUFFER_USAGE_VERTEX_BUFFER_BIT,
           usage := 2, sharingMode := VK_SHARING_MODE_EXCLUSIVE }] := by
  constructor <;> decide

/-- C2: with every device call succeeding, `CreateBufferFromData` on the two bytes
`[7, 9]` returns a destination buffer whose first two bytes are `[7, 0]`: the staging
buffer was created one byte long, so the copy of two bytes takes one byte from it.  On
4096 bytes of data it returns a destination buffer that shows at most 130 bytes. -/
theorem CreateBufferFromData_loses_bytes :
    (CreateBufferFromData okDriver emptyWorld 9 [7, 9] 2 VK_BUFFER_USAGE_VERTEX_BUFFER_BIT).1
      = Except.ok (3, 4) ∧
    ((CreateBufferFromData okDriver emptyWorld 9 [7, 9] 2
        VK_BUFFER_USAGE_VERTEX_BUFFER_BIT).2.bufferBytes 3).take 2 = [7, 0] ∧
    (CreateBufferFromData okDriver emptyWorld 9 (List.replicate 4096 7) 4096
        VK_BUFFER_USAGE_VERTEX_BUFFER_BIT).1 = Except.ok (3, 4) ∧
    ((CreateBufferFromData okDriver emptyWorld 9 (List.replicate 4096 7) 4096
        VK_BUFFER_USAGE_VERTEX_BUFFER_BIT).2.bufferBytes 3).length ≤ 130 :=
  ⟨by decide, by decide, by decide,
    CreateBufferFromData_destination_length
      (Prod.ext (by decide) rfl :
        CreateBufferFromData okDriver emptyWorld 9 (List.replicate 4096 7) 4096
          VK_BUFFER_USAGE_VERTEX_BUFFER_BIT
        = (Except.ok (3, 4),
            (CreateBufferFromData okDriver emptyWorld 9 (List.replicate 4096 7) 4096
              VK_BUFFER_USAGE_VERTEX_BUFFER_BIT).2))⟩

/-- C3: on a driver whose `vkBindBufferMemory` reports `VK_ERROR_OUT_OF_DEVICE_MEMORY`,
`CreateBuffer` returns normally. -/
theorem CreateBuffer_returns_ok_when_bind_fails :
    (CreateBuffer bindFailsDriver emptyWorld VK_BUFFER_USAGE_VERTEX_BUFFER_BIT 16
        VK_MEMORY_PROPERTY_DEVICE_LOCAL_BIT).1 = Except.ok (1, 2) ∧
    (newCalls emptyWorld (CreateBuffer bindFailsDriver emptyWorld
        VK_BUFFER_USAGE_VERTEX_BUFFER_BIT 16 VK_MEMORY_PROPERTY_DEVICE_LOCAL_BIT).2).getLast?
      = some (Call.vkBindBufferMemory 1 2 0 VkResult.VK_ERROR_OUT_OF_DEVICE_MEMORY) := by
  constructor <;> decide

/-- C4: on a driver that meets the assumptions on memory requirements and on the memory
type resolver, and whose `vkBindBufferMemory` fails, `CreateBuffer` completes and the
buffer it returns has no allocation bound. -/
theorem CreateBuffer_ok_without_binding :
    16 ≤ (bindFailsDriver.memoryRequirements
      ⟨VK_STRUCTURE_TYPE_BUFFER_CREATE_INFO, 16, VK_BUFFER_USAGE_VERTEX_BUFFER_BIT,
        VK_SHARING_MODE_EXCLUSIVE⟩).size ∧
    (bindFailsDriver.memoryRequirements
      ⟨VK_STRUCTURE_TYPE_BUFFER_CREATE_INFO, 16, VK_BUFFER_USAGE_VERTEX_BUFFER_BIT,
        VK_SHARING_MODE_EXCLUSIVE⟩).memoryTypeBits.testBit
      (bindFailsDriver.GetMemoryTypeIndex 1 VK_MEMORY_PROPERTY_DEVICE_LOCAL_BIT) = true ∧
    bindFailsDriver.memoryTypeFlags
      (bindFailsDriver.GetMemoryTypeIndex 1 VK_MEMORY_PROPERTY_DEVICE_LOCAL_BIT)
      &&& VK_MEMORY_PROPERTY_DEVICE_LOCAL_BIT = VK_MEMORY_PROPERTY_DEVICE_LOCAL_BIT ∧
    (CreateBuffer bindFailsDriver emptyWorld VK_BUFFER_USAGE_VERTEX_BUFFER_BIT 16
        VK_MEMORY_PROPERTY_DEVICE_LOCAL_BIT).1 = Except.ok (1, 2) ∧
    (CreateBuffer bindFailsDriver emptyWorld VK_BUFFER_USAGE_VERTEX_BUFFER_BIT 16
        VK_MEMORY_PROPERTY_DEVICE_LOCAL_BIT).2.findBinding 1 = none ∧
    (CreateBuffer bindFailsDriver emptyWorld VK_BUFFER_USAGE_VERTEX_BUFFER_BIT 16
        VK_MEMORY_PROPERTY_DEVICE_LOCAL_BIT).2.bindings = [] := by
  refine ⟨by decide, by decide, by decide, by decide, by decide, by decide⟩

/-- C7, counterexample: from the empty state, where the invariant holds, a call of
`CreateBuffer` whose memory allocation fails ends in a state where the invariant does
not hold: buffer 1 is live and no allocation is bound to it. -/
theorem CreateBuffer_breaks_invariant_when_allocation_fails :
    BindingInvariant emptyWorld ∧
    (CreateBuffer allocFailsDriver emptyWorld VK_BUFFER_USAGE_VERTEX_BUFFER_BIT 16
      VK_MEMORY_PROPERTY_DEVICE_LOCAL_BIT).1
      = Except.error (Error.runtime_error "Failed to allocate device memory for the buffer") ∧
    (CreateBuffer allocFailsDriver emptyWorld VK_BUFFER_USAGE_VERTEX_BUFFER_BIT 16
      VK_MEMORY_PROPERTY_DEVICE_LOCAL_BIT).2.liveBuffers = [1] ∧
    (CreateBuffer allocFailsDriver emptyWorld VK_BUFFER_USAGE_VERTEX_BUFFER_BIT 16
      VK_MEMORY_PROPERTY_DEVICE_LOCAL_BIT).2.bindings = [] ∧
    ¬ BindingInvariant (CreateBuffer allocFailsDriver emptyWorld
      VK_BUFFER_USAGE_VERTEX_BUFFER_BIT 16 VK_MEMORY_PROPERTY_DEVICE_LOCAL_BIT).2 := by
  refine ⟨by decide, by decide, by decide, by decide, by decide⟩

/-- C7, amended: if the binding invariant holds before a call of `CreateBuffer`, it holds
after the call when buffer creation fails, and when the call completes and its
`vkBindBufferMemory` has reported success. -/
theorem CreateBuffer_preserves_BindingInvariant (drv : Driver) (w w1 : World)
    (allowedUsage size properties : Nat) (res : Except Error (Nat × Nat))
    (hinv : BindingInvariant w)
    (h : CreateBuffer drv w allowedUsage size properties = (res, w1))
    (hout : drv.createBufferResult w ⟨VK_STRUCTURE_TYPE_BUFFER_CREATE_INFO, size,
        allowedUsage, VK_SHARING_MODE_EXCLUSIVE⟩ ≠ VkResult.VK_SUCCESS ∨
      ∃ b m, res = Except.ok (b, m) ∧
        Call.vkBindBufferMemory b m 0 VkResult.VK_SUCCESS ∈ newCalls w w1) :
    BindingInvariant w1 := by
  rcases hout with hfail | ⟨b, m, rfl, hbind⟩
  · rcases res with e | ⟨b, m⟩
    · obtain ⟨hm, hbd, -, hcase⟩ := CreateBuffer_error h
      rcases hcase with ⟨-, hb⟩ | ⟨hs, -⟩
      · unfold BindingInvariant BuffersBoundOnce AllocationsBoundAtMostOnce
        rw [hm, hbd, hb]
        exact hinv
      · exact absurd hs hfail
    · exact absurd (CreateBuffer_ok h).1 hfail
  · obtain ⟨-, rfl, rfl, hb, hm, -, r3, hbd, ht⟩ := CreateBuffer_ok h
    rw [newCalls_append w w1 _ ht] at hbind
    simp only [List.mem_cons, List.mem_singleton, Call.vkBindBufferMemory.injEq, true_and,
      List.mem_nil_iff, or_false, reduceCtorEq, false_or] at hbind
    subst hbind
    simp only [if_true] at hbd
    exact BindingInvariant_add hinv rfl hb hm hbd

/-- C7, amended, at a concrete call: from the empty state, on a driver whose calls all
succeed. -/
theorem CreateBuffer_preserves_BindingInvariant_witness :
    BindingInvariant emptyWorld ∧
    BindingInvariant (CreateBuffer okDriver emptyWorld VK_BUFFER_USAGE_VERTEX_BUFFER_BIT 16
      VK_MEMORY_PROPERTY_DEVICE_LOCAL_BIT).2 :=
  ⟨by decide,
    CreateBuffer_preserves_BindingInvariant okDriver emptyWorld _
      VK_BUFFER_USAGE_VERTEX_BUFFER_BIT 16 VK_MEMORY_PROPERTY_DEVICE_LOCAL_BIT _
      (by decide) rfl (Or.inr ⟨1, 2, by decide, by decide⟩)⟩

/-- C6: in a state where no allocation is bound to two buffers, and for a size within
both buffers, `CopyBuffer` makes three calls: it begins a single-time command buffer,
records one copy from source to destination with the one region
`{srcOffset = 0, dstOffset = 0, size}`, and ends the command buffer.  Afterwards the
first `size` bytes of the destination are the first `size` bytes of the source, the
destination bytes from `size` on are as before, and the source is as before. -/
theorem CopyBuffer_copies_prefix (w : World) (commandPool srcBuffer dstBuffer size : Nat)
    (hbound : AllocationsBoundAtMostOnce w)
    (hsrc : size ≤ (w.bufferBytes srcBuffer).length)
    (hdst : size ≤ (w.bufferBytes dstBuffer).length) :
    (∃ commandBuffer,
      newCalls w (CopyBuffer w commandPool srcBuffer dstBuffer size) =
        [Call.beginSingleTimeCommands commandPool commandBuffer,
         Call.vkCmdCopyBuffer commandBuffer srcBuffer dstBuffer
           [{ srcOffset := 0, dstOffset := 0, size := size }],
         Call.endSingleTimeCommands commandPool commandBuffer]) ∧
    ((CopyBuffer w commandPool srcBuffer dstBuffer size).bufferBytes dstBuffer).take size
      = ((CopyBuffer w commandPool srcBuffer dstBuffer size).bufferBytes srcBuffer).take size ∧
    ((CopyBuffer w commandPool srcBuffer dstBuffer size).bufferBytes dstBuffer).drop size
      = (w.bufferBytes dstBuffer).drop size ∧
    (CopyBuffer w commandPool srcBuffer dstBuffer size).bufferBytes srcBuffer
      = w.bufferBytes srcBuffer := by
  obtain ⟨hb, hbd, -, ht, hm⟩ := CopyBuffer_spec w commandPool srcBuffer dstBuffer size
  have hso := copyRegion_sameObjects w srcBuffer dstBuffer ⟨0, 0, size⟩
  have hcongr : ∀ x, (CopyBuffer w commandPool srcBuffer dstBuffer size).bufferBytes x
      = (w.copyRegion srcBuffer dstBuffer ⟨0, 0, size⟩).bufferBytes x := fun x =>
    bufferBytes_congr (hb.trans hso.buffers.symm) (hbd.trans hso.bindings.symm) hm x
  have hsame : (w.copyRegion srcBuffer dstBuffer ⟨0, 0, size⟩).bufferBytes srcBuffer
      = w.bufferBytes srcBuffer := bufferBytes_copyRegion_src w srcBuffer dstBuffer size hbound
  refine ⟨⟨w.freshHandle, newCalls_append _ _ _ ht⟩, ?_, ?_, ?_⟩
  · rw [hcongr, hcongr, hsame]
    rcases Nat.eq_zero_or_pos size with h0 | hpos
    · simp [h0]
    · exact (bufferBytes_copyRegion_dst w srcBuffer dstBuffer size hpos hsrc hdst).1
  · rw [hcongr]
    rcases Nat.eq_zero_or_pos size with h0 | hpos
    · subst h0
      simp only [List.drop_zero]
      exact bufferBytes_congr hso.buffers hso.bindings (copyRegion_zero_memories w _ _) _
    · exact (bufferBytes_copyRegion_dst w srcBuffer dstBuffer size hpos hsrc hdst).2
  · rw [hcongr, hsame]

/-- C6 at a concrete call: three bytes copied from buffer 1 (`[10, 20, 30, 40]`) to
buffer 3 (`[1, 2, 3, 4, 5, 6]`). -/
theorem CopyBuffer_copies_prefix_witness :
    (AllocationsBoundAtMostOnce twoBuffersWorld ∧
      3 ≤ (twoBuffersWorld.bufferBytes 1).length ∧
      3 ≤ (twoBuffersWorld.bufferBytes 3).length) ∧
    (CopyBuffer twoBuffersWorld 9 1 3 3).bufferBytes 3 = [10, 20, 30, 4, 5, 6] ∧
    ((∃ commandBuffer,
      newCalls twoBuffersWorld (CopyBuffer twoBuffersWorld 9 1 3 3) =
        [Call.beginSingleTimeCommands 9 commandBuffer,
         Call.vkCmdCopyBuffer commandBuffer 1 3 [{ srcOffset := 0, dstOffset := 0, size := 3 }],
         Call.endSingleTimeCommands 9 commandBuffer]) ∧
    ((CopyBuffer twoBuffersWorld 9 1 3 3).bufferBytes 3).take 3
      = ((CopyBuffer twoBuffersWorld 9 1 3 3).bufferBytes 1).take 3 ∧
    ((CopyBuffer twoBuffersWorld 9 1 3 3).bufferBytes 3).drop 3
      = (twoBuffersWorld.bufferBytes 3).drop 3 ∧
    (CopyBuffer twoBuffersWorld 9 1 3 3).bufferBytes 1 = twoBuffersWorld.bufferBytes 1) :=
  ⟨⟨by decide, by decide, by decide⟩, by decide,
    CopyBuffer_copies_prefix twoBuffersWorld 9 1 3 3 (by decide) (by decide) (by decide)⟩

/-- C8: a call of `createBufferFromDataVMA` that completes has made exactly these calls,
in this order: `vmaCreateBuffer` for the staging buffer (size `bufferSize`, usage
`TRANSFER_SRC`, exclusive sharing, intent `CPU_ONLY` with the `MAPPED` flag), the `memcpy`
into it, `vmaCreateBuffer` for the destination buffer (size `bufferSize`, usage
`bufferUsage | TRANSFER_DST`, exclusive sharing, intent `GPU_ONLY`, no flags), one
single-time command buffer in which the one region `{0, 0, bufferSize}` is copied from
staging to destination, and `vmaDestroyBuffer` of the staging buffer; the buffer it
returns is live with that size and usage.  And a call of `createBufferVMA` that completes
has made the one call `vmaCreateBuffer` with the given size and usage, exclusive sharing
and intent `GPU_ONLY` without flags; the buffer it returns is live with the given size
and usage, the allocation it returns is live with intent `GPU_ONLY` and is bound to the
buffer at offset 0. -/
theorem createBufferFromDataVMA_calls (drv : Driver) (w : World) :
    (∀ (commandPool : Nat) (bufferData : List Nat) (bufferSize bufferUsage buffer alloc : Nat)
      (w1 : World),
      createBufferFromDataVMA drv w commandPool bufferData bufferSize bufferUsage
        = (Except.ok (buffer, alloc), w1) →
      (∃ stagingBuffer stagingBufferAlloc commandBuffer,
        newCalls w w1 =
          [Call.vmaCreateBuffer
             { sType := VK_STRUCTURE_TYPE_BUFFER_CREATE_INFO, size := bufferSize,
               usage := VK_BUFFER_USAGE_TRANSFER_SRC_BIT,
               sharingMode := VK_SHARING_MODE_EXCLUSIVE }
             { usage := VMA_MEMORY_USAGE_CPU_ONLY, flags := VMA_ALLOCATION_CREATE_MAPPED_BIT }
             VkResult.VK_SUCCESS stagingBuffer stagingBufferAlloc,
           Call.memcpy (some (stagingBufferAlloc, 0)) bufferData bufferSize,
           Call.vmaCreateBuffer
             { sType := VK_STRUCTURE_TYPE_BUFFER_CREATE_INFO, size := bufferSize,
               usage := bufferUsage ||| VK_BUFFER_USAGE_TRANSFER_DST_BIT,
               sharingMode := VK_SHARING_MODE_EXCLUSIVE }
             { usage := VMA_MEMORY_USAGE_GPU_ONLY, flags := 0 }
             VkResult.VK_SUCCESS buffer alloc,
           Call.beginSingleTimeCommands commandPool commandBuffer,
           Call.vkCmdCopyBuffer commandBuffer stagingBuffer buffer
             [{ srcOffset := 0, dstOffset := 0, size := bufferSize }],
           Call.endSingleTimeCommands commandPool commandBuffer,
           Call.vmaDestroyBuffer stagingBuffer stagingBufferAlloc]) ∧
      w1.findBuffer buffer = some
        { handle := buffer,
          createInfo :=
            { sType := VK_STRUCTURE_TYPE_BUFFER_CREATE_INFO, size := bufferSize,
              usage := bufferUsage ||| VK_BUFFER_USAGE_TRANSFER_DST_BIT,
              sharingMode := VK_SHARING_MODE_EXCLUSIVE } }) ∧
    (∀ (allowedUsage size buffer alloc : Nat) (w1 : World),
      createBufferVMA drv w allowedUsage size = (Except.ok (buffer, alloc), w1) →
      newCalls w w1 =
        [Call.vmaCreateBuffer
           { sType := VK_STRUCTURE_TYPE_BUFFER_CREATE_INFO, size := size,
             usage := allowedUsage, sharingMode := VK_SHARING_MODE_EXCLUSIVE }
           { usage := VMA_MEMORY_USAGE_GPU_ONLY, flags := 0 }
           VkResult.VK_SUCCESS buffer alloc] ∧
      w1.findBuffer buffer = some
        { handle := buffer,
          createInfo :=
            { sType := VK_STRUCTURE_TYPE_BUFFER_CREATE_INFO, size := size,
              usage := allowedUsage, sharingMode := VK_SHARING_MODE_EXCLUSIVE } } ∧
      (∃ mo, w1.findMemory alloc = some mo ∧
        mo.vma = some { usage := VMA_MEMORY_USAGE_GPU_ONLY, flags := 0 }) ∧
      w1.findBinding buffer = some { buffer := buffer, memory := alloc, memoryOffset := 0 } ∧
      w1.liveBuffers = w.liveBuffers ++ [buffer] ∧
      w1.liveMemories = w.liveMemories ++ [alloc]) := by
  constructor
  · intro commandPool bufferData bufferSize bufferUsage buffer alloc w1 h
    obtain ⟨rfl, -, hb, -, ht⟩ := createBufferFromDataVMA_ok h
    refine ⟨⟨_, _, _, newCalls_append _ _ _ ht⟩, ?_⟩
    simp [World.findBuffer, hb, List.find?_append,
      find?_old_buffer_none w (w.freshHandle + 2) (Nat.le_add_right _ _)]
  · intro allowedUsage size buffer alloc w1 h
    obtain ⟨rfl, rfl, hb, hm, hbd, ht⟩ := createBufferVMA_ok h
    refine ⟨newCalls_append _ _ _ ht, ?_,
      ⟨⟨w.freshHandle + 1, ⟨VK_STRUCTURE_TYPE_MEMORY_ALLOCATE_INFO,
          (drv.memoryRequirements ⟨VK_STRUCTURE_TYPE_BUFFER_CREATE_INFO, size, allowedUsage,
            VK_SHARING_MODE_EXCLUSIVE⟩).size,
          drv.vmaMemoryTypeIndex (drv.memoryRequirements ⟨VK_STRUCTURE_TYPE_BUFFER_CREATE_INFO,
            size, allowedUsage, VK_SHARING_MODE_EXCLUSIVE⟩) ⟨0, VMA_MEMORY_USAGE_GPU_ONLY⟩⟩,
        List.replicate (drv.memoryRequirements ⟨VK_STRUCTURE_TYPE_BUFFER_CREATE_INFO, size,
          allowedUsage, VK_SHARING_MODE_EXCLUSIVE⟩).size 0,
        some ⟨0, VMA_MEMORY_USAGE_GPU_ONLY⟩⟩, ?_, rfl⟩, ?_, ?_, ?_⟩
    · simp [World.findBuffer, hb, List.find?_append,
        find?_old_buffer_none w w.freshHandle (Nat.le_refl _)]
    · simp only [World.findMemory, hm, List.find?_append,
        find?_old_memory_none w (w.freshHandle + 1) (Nat.le_add_right _ _)]
      simp
    · simp [World.findBinding, hbd, List.find?_append,
        find?_old_binding_none w w.freshHandle (Nat.le_refl _)]
    · simp [World.liveBuffers, hb]
    · simp [World.liveMemories, hm]

/-- C8 at concrete calls, from the empty state.  On a driver whose calls all succeed,
`createBufferFromDataVMA` uploads two bytes for a vertex buffer and returns buffer 3,
which shows the two bytes.  On a driver whose allocator refuses `CPU_ONLY` requests,
`createBufferFromDataVMA` ends in an error and `createBufferVMA` completes: it returns
buffer 1 on allocation 2. -/
theorem createBufferFromDataVMA_calls_witness :
    (createBufferFromDataVMA okDriver emptyWorld 9 [7, 9] 2 VK_BUFFER_USAGE_VERTEX_BUFFER_BIT
      = (Except.ok (3, 4),
          (createBufferFromDataVMA okDriver emptyWorld 9 [7, 9] 2
            VK_BUFFER_USAGE_VERTEX_BUFFER_BIT).2) ∧
    ((createBufferFromDataVMA okDriver emptyWorld 9 [7, 9] 2
        VK_BUFFER_USAGE_VERTEX_BUFFER_BIT).2.bufferBytes 3 = [7, 9]) ∧
    (∃ stagingBuffer stagingBufferAlloc commandBuffer,
      newCalls emptyWorld (createBufferFromDataVMA okDriver emptyWorld 9 [7, 9] 2
          VK_BUFFER_USAGE_VERTEX_BUFFER_BIT).2 =
        [Call.vmaCreateBuffer
           { sType := VK_STRUCTURE_TYPE_BUFFER_CREATE_INFO, size := 2,
             usage := VK_BUFFER_USAGE_TRANSFER_SRC_BIT,
             sharingMode := VK_SHARING_MODE_EXCLUSIVE }
           { usage := VMA_MEMORY_USAGE_CPU_ONLY, flags := VMA_ALLOCATION_CREATE_MAPPED_BIT }
           VkResult.VK_SUCCESS stagingBuffer stagingBufferAlloc,
         Call.memcpy (some (stagingBufferAlloc, 0)) [7, 9] 2,
         Call.vmaCreateBuffer
           { sType := VK_STRUCTURE_TYPE_BUFFER_CREATE_INFO, size := 2,
             usage := VK_BUFFER_USAGE_VERTEX_BUFFER_BIT ||| VK_BUFFER_USAGE_TRANSFER_DST_BIT,
             sharingMode := VK_SHARING_MODE_EXCLUSIVE }
           { usage := VMA_MEMORY_USAGE_GPU_ONLY, flags := 0 }
           VkResult.VK_SUCCESS 3 4,
         Call.beginSingleTimeCommands 9 commandBuffer,
         Call.vkCmdCopyBuffer commandBuffer stagingBuffer 3
           [{ srcOffset := 0, dstOffset := 0, size := 2 }],
         Call.endSingleTimeCommands 9 commandBuffer,
         Call.vmaDestroyBuffer stagingBuffer stagingBufferAlloc]) ∧
    (createBufferFromDataVMA okDriver emptyWorld 9 [7, 9] 2
        VK_BUFFER_USAGE_VERTEX_BUFFER_BIT).2.findBuffer 3 = some
      { handle := 3,
        createInfo :=
          { sType := VK_STRUCTURE_TYPE_BUFFER_CREATE_INFO, size := 2,
            usage := VK_BUFFER_USAGE_VERTEX_BUFFER_BIT ||| VK_BUFFER_USAGE_TRANSFER_DST_BIT,
            sharingMode := VK_SHARING_MODE_EXCLUSIVE } }) ∧
    ((createBufferFromDataVMA gpuOnlyDriver emptyWorld 9 [7, 9] 2
        VK_BUFFER_USAGE_VERTEX_BUFFER_BIT).1
      = Except.error (Error.ERR_GUARD_VULKAN VkResult.VK_ERROR_OUT_OF_HOST_MEMORY) ∧
    createBufferVMA gpuOnlyDriver emptyWorld VK_BUFFER_USAGE_VERTEX_BUFFER_BIT 16
      = (Except.ok (1, 2),
          (createBufferVMA gpuOnlyDriver emptyWorld VK_BUFFER_USAGE_VERTEX_BUFFER_BIT 16).2) ∧
    newCalls emptyWorld
        (createBufferVMA gpuOnlyDriver emptyWorld VK_BUFFER_USAGE_VERTEX_BUFFER_BIT 16).2 =
      [Call.vmaCreateBuffer
         { sType := VK_STRUCTURE_TYPE_BUFFER_CREATE_INFO, size := 16,
           usage := VK_BUFFER_USAGE_VERTEX_BUFFER_BIT,
           sharingMode := VK_SHARING_MODE_EXCLUSIVE }
         { usage := VMA_MEMORY_USAGE_GPU_ONLY, flags := 0 }
         VkResult.VK_SUCCESS 1 2] ∧
    (createBufferVMA gpuOnlyDriver emptyWorld VK_BUFFER_USAGE_VERTEX_BUFFER_BIT 16).2.findBuffer 1
      = some
        { handle := 1,
          createInfo :=
            { sType := VK_STRUCTURE_TYPE_BUFFER_CREATE_INFO, size := 16,
              usage := VK_BUFFER_USAGE_VERTEX_BUFFER_BIT,
              sharingMode := VK_SHARING_MODE_EXCLUSIVE } } ∧
    (∃ mo, (createBufferVMA gpuOnlyDriver emptyWorld VK_BUFFER_USAGE_VERTEX_BUFFER_BIT
        16).2.findMemory 2 = some mo ∧
      mo.vma = some { usage := VMA_MEMORY_USAGE_GPU_ONLY, flags := 0 }) ∧
    (createBufferVMA gpuOnlyDriver emptyWorld VK_BUFFER_USAGE_VERTEX_BUFFER_BIT
        16).2.findBinding 1 = some { buffer := 1, memory := 2, memoryOffset := 0 } ∧
    (createBufferVMA gpuOnlyDriver emptyWorld VK_BUFFER_USAGE_VERTEX_BUFFER_BIT 16).2.liveBuffers
      = emptyWorld.liveBuffers ++ [1] ∧
    (createBufferVMA gpuOnlyDriver emptyWorld VK_BUFFER_USAGE_VERTEX_BUFFER_BIT 16).2.liveMemories
      = emptyWorld.liveMemories ++ [2]) :=
  ⟨⟨by decide, by decide,
      (createBufferFromDataVMA_calls okDriver emptyWorld).1 9 [7, 9] 2
        VK_BUFFER_USAGE_VERTEX_BUFFER_BIT 3 4 _ (by decide)⟩,
    by decide, by decide,
    (createBufferFromDataVMA_calls gpuOnlyDriver emptyWorld).2
      VK_BUFFER_USAGE_VERTEX_BUFFER_BIT 16 1 2 _ (by decide)⟩

/-- C9: a call of `createVertexandIndexBuffersVMA` that completes, on vertex and index
data whose byte counts fit in 64 bits, has made exactly these calls, in this order: the
four buffer creations with the two `memcpy` into the staging buffers, then one
`beginSingleTimeCommands`, the copy staging-vertex -> `vertexBuffer` with the region
`{0, 0, |vertices| * sizeof(Vertex)}`, the copy staging-index -> `indexBuffer` with the
region `{0, 0, |indices| * 4}`, both on that one command buffer, one
`endSingleTimeCommands`, and then the two `vmaDestroyBuffer` of the staging buffers. -/
theorem createVertexandIndexBuffersVMA_calls (drv : Driver) (w w1 : World)
    (commandPool sizeofVertex : Nat) (vertices : List (List Nat)) (indices : List Nat)
    (vertexBuffer indexBuffer vertexAlloc indexAlloc : Nat)
    (hv : vertices.length * sizeofVertex < 2 ^ 64) (hi : indices.length * 4 < 2 ^ 64)
    (h : createVertexandIndexBuffersVMA drv w commandPool sizeofVertex vertices indices
      = (Except.ok (vertexBuffer, indexBuffer, vertexAlloc, indexAlloc), w1)) :
    ∃ stagingVertexBuffer stagingVertexBufferAlloc stagingIndexBuffer stagingIndexBufferAlloc
      commandBuffer,
      newCalls w w1 =
        [Call.vmaCreateBuffer
           { sType := VK_STRUCTURE_TYPE_BUFFER_CREATE_INFO,
             size := vertices.length * sizeofVertex,
             usage := VK_BUFFER_USAGE_TRANSFER_SRC_BIT,
             sharingMode := VK_SHARING_MODE_EXCLUSIVE }
           { usage := VMA_MEMORY_USAGE_CPU_ONLY, flags := VMA_ALLOCATION_CREATE_MAPPED_BIT }
           VkResult.VK_SUCCESS stagingVertexBuffer stagingVertexBufferAlloc,
         Call.memcpy (some (stagingVertexBufferAlloc, 0)) vertices.flatten
           (vertices.length * sizeofVertex),
         Call.vmaCreateBuffer
           { sType := VK_STRUCTURE_TYPE_BUFFER_CREATE_INFO,
             size := vertices.length * sizeofVertex,
             usage := VK_BUFFER_USAGE_TRANSFER_DST_BIT ||| VK_BUFFER_USAGE_VERTEX_BUFFER_BIT,
             sharingMode := VK_SHARING_MODE_EXCLUSIVE }
           { usage := VMA_MEMORY_USAGE_GPU_ONLY, flags := 0 }
           VkResult.VK_SUCCESS vertexBuffer vertexAlloc,
         Call.vmaCreateBuffer
           { sType := VK_STRUCTURE_TYPE_BUFFER_CREATE_INFO, size := indices.length * 4,
             usage := VK_BUFFER_USAGE_TRANSFER_SRC_BIT,
             sharingMode := VK_SHARING_MODE_EXCLUSIVE }
           { usage := VMA_MEMORY_USAGE_CPU_ONLY, flags := VMA_ALLOCATION_CREATE_MAPPED_BIT }
           VkResult.VK_SUCCESS stagingIndexBuffer stagingIndexBufferAlloc,
         Call.memcpy (some (stagingIndexBufferAlloc, 0)) (indices.map uint32Bytes).flatten
           (indices.length * 4),
         Call.vmaCreateBuffer
           { sType := VK_STRUCTURE_TYPE_BUFFER_CREATE_INFO, size := indices.length * 4,
             usage := VK_BUFFER_USAGE_TRANSFER_DST_BIT ||| VK_BUFFER_USAGE_VERTEX_BUFFER_BIT,
             sharingMode := VK_SHARING_MODE_EXCLUSIVE }
           { usage := VMA_MEMORY_USAGE_GPU_ONLY, flags := 0 }
           VkResult.VK_SUCCESS indexBuffer indexAlloc,
         Call.beginSingleTimeCommands commandPool commandBuffer,
         Call.vkCmdCopyBuffer commandBuffer stagingVertexBuffer vertexBuffer
           [{ srcOffset := 0, dstOffset := 0, size := vertices.length * sizeofVertex }],
         Call.vkCmdCopyBuffer commandBuffer stagingIndexBuffer indexBuffer
           [{ srcOffset := 0, dstOffset := 0, size := indices.length * 4 }],
         Call.endSingleTimeCommands commandPool commandBuffer,
         Call.vmaDestroyBuffer stagingIndexBuffer stagingIndexBufferAlloc,
         Call.vmaDestroyBuffer stagingVertexBuffer stagingVertexBufferAlloc] := by
  obtain ⟨-, -, -, -, -, -, ht⟩ := createVertexandIndexBuffersVMA_ok h
  have e1 : toUint64 (vertices.length * sizeofVertex) = vertices.length * sizeofVertex :=
    Nat.mod_eq_of_lt hv
  have e2 : toUint64 (indices.length * 4) = indices.length * 4 := Nat.mod_eq_of_lt hi
  rw [e1, e2] at ht
  exact ⟨_, _, _, _, _, newCalls_append _ _ _ ht⟩

/-- C9 at a concrete call: two vertices of two bytes each and one index, from the empty
state, on a driver whose calls all succeed. -/
theorem createVertexandIndexBuffersVMA_calls_witness :
    createVertexandIndexBuffersVMA okDriver emptyWorld 9 2 [[1, 2], [3, 4]] [5]
      = (Except.ok (3, 7, 4, 8),
          (createVertexandIndexBuffersVMA okDriver emptyWorld 9 2 [[1, 2], [3, 4]] [5]).2) ∧
    newCalls emptyWorld
        (createVertexandIndexBuffersVMA okDriver emptyWorld 9 2 [[1, 2], [3, 4]] [5]).2 =
      [Call.vmaCreateBuffer ⟨12, 4, 1, 0⟩ ⟨4, 2⟩ VkResult.VK_SUCCESS 1 2,
       Call.memcpy (some (2, 0)) [1, 2, 3, 4] 4,
       Call.vmaCreateBuffer ⟨12, 4, 130, 0⟩ ⟨0, 1⟩ VkResult.VK_SUCCESS 3 4,
       Call.vmaCreateBuffer ⟨12, 4, 1, 0⟩ ⟨4, 2⟩ VkResult.VK_SUCCESS 5 6,
       Call.memcpy (some (6, 0)) [5, 0, 0, 0] 4,
       Call.vmaCreateBuffer ⟨12, 4, 130, 0⟩ ⟨0, 1⟩ VkResult.VK_SUCCESS 7 8,
       Call.beginSingleTimeCommands 9 9,
       Call.vkCmdCopyBuffer 9 1 3 [⟨0, 0, 4⟩],
       Call.vkCmdCopyBuffer 9 5 7 [⟨0, 0, 4⟩],
       Call.endSingleTimeCommands 9 9,
       Call.vmaDestroyBuffer 5 6,
       Call.vmaDestroyBuffer 1 2] ∧
    ∃ stagingVertexBuffer stagingVertexBufferAlloc stagingIndexBuffer stagingIndexBufferAlloc
      commandBuffer,
      newCalls emptyWorld
          (createVertexandIndexBuffersVMA okDriver emptyWorld 9 2 [[1, 2], [3, 4]] [5]).2 =
        [Call.vmaCreateBuffer
           { sType := VK_STRUCTURE_TYPE_BUFFER_CREATE_INFO,
             size := [[1, 2], [3, 4]].length * 2,
             usage := VK_BUFFER_USAGE_TRANSFER_SRC_BIT,
             sharingMode := VK_SHARING_MODE_EXCLUSIVE }
           { usage := VMA_MEMORY_USAGE_CPU_ONLY, flags := VMA_ALLOCATION_CREATE_MAPPED_BIT }
           VkResult.VK_SUCCESS stagingVertexBuffer stagingVertexBufferAlloc,
         Call.memcpy (some (stagingVertexBufferAlloc, 0)) [[1, 2], [3, 4]].flatten
           ([[1, 2], [3, 4]].length * 2),
         Call.vmaCreateBuffer
           { sType := VK_STRUCTURE_TYPE_BUFFER_CREATE_INFO,
             size := [[1, 2], [3, 4]].length * 2,
             usage := VK_BUFFER_USAGE_TRANSFER_DST_BIT ||| VK_BUFFER_USAGE_VERTEX_BUFFER_BIT,
             sharingMode := VK_SHARING_MODE_EXCLUSIVE }
           { usage := VMA_MEMORY_USAGE_GPU_ONLY, flags := 0 }
           VkResult.VK_SUCCESS 3 4,
         Call.vmaCreateBuffer
           { sType := VK_STRUCTURE_TYPE_BUFFER_CREATE_INFO, size := [5].length * 4,
             usage := VK_BUFFER_USAGE_TRANSFER_SRC_BIT,
             sharingMode := VK_SHARING_MODE_EXCLUSIVE }
           { usage := VMA_MEMORY_USAGE_CPU_ONLY, flags := VMA_ALLOCATION_CREATE_MAPPED_BIT }
           VkResult.VK_SUCCESS stagingIndexBuffer stagingIndexBufferAlloc,
         Call.memcpy (some (stagingIndexBufferAlloc, 0)) ([5].map uint32Bytes).flatten
           ([5].length * 4),
         Call.vmaCreateBuffer
           { sType := VK_STRUCTURE_TYPE_BUFFER_CREATE_INFO, size := [5].length * 4,
             usage := VK_BUFFER_USAGE_TRANSFER_DST_BIT ||| VK_BUFFER_USAGE_VERTEX_BUFFER_BIT,
             sharingMode := VK_SHARING_MODE_EXCLUSIVE }
           { usage := VMA_MEMORY_USAGE_GPU_ONLY, flags := 0 }
           VkResult.VK_SUCCESS 7 8,
         Call.beginSingleTimeCommands 9 commandBuffer,
         Call.vkCmdCopyBuffer commandBuffer stagingVertexBuffer 3
           [{ srcOffset := 0, dstOffset := 0, size := [[1, 2], [3, 4]].length * 2 }],
         Call.vkCmdCopyBuffer commandBuffer stagingIndexBuffer 7
           [{ srcOffset := 0, dstOffset := 0, size := [5].length * 4 }],
         Call.endSingleTimeCommands 9 commandBuffer,
         Call.vmaDestroyBuffer stagingIndexBuffer stagingIndexBufferAlloc,
         Call.vmaDestroyBuffer stagingVertexBuffer stagingVertexBufferAlloc] :=
  ⟨by decide, by decide,
    createVertexandIndexBuffersVMA_calls okDriver emptyWorld _ 9 2 [[1, 2], [3, 4]] [5]
      3 7 4 8 (by decide) (by decide) (by decide)⟩

/-- C10: after a call of `createVertexandIndexBuffersVMA` that completes, the index
buffer it returns is the destination of the copy of the index data and is a buffer
created with usage exactly `TRANSFER_DST | VERTEX_BUFFER`, which is the usage of the
vertex buffer it returns and in which the `INDEX_BUFFER` bit is not set. -/
theorem createVertexandIndexBuffersVMA_index_usage (drv : Driver) (w w1 : World)
    (commandPool sizeofVertex : Nat) (vertices : List (List Nat)) (indices : List Nat)
    (vertexBuffer indexBuffer vertexAlloc indexAlloc : Nat)
    (h : createVertexandIndexBuffersVMA drv w commandPool sizeofVertex vertices indices
      = (Except.ok (vertexBuffer, indexBuffer, vertexAlloc, indexAlloc), w1)) :
    (w1.findBuffer indexBuffer).map (fun b => b.createInfo.usage)
      = some (VK_BUFFER_USAGE_TRANSFER_DST_BIT ||| VK_BUFFER_USAGE_VERTEX_BUFFER_BIT) ∧
    (w1.findBuffer vertexBuffer).map (fun b => b.createInfo.usage)
      = some (VK_BUFFER_USAGE_TRANSFER_DST_BIT ||| VK_BUFFER_USAGE_VERTEX_BUFFER_BIT) ∧
    (VK_BUFFER_USAGE_TRANSFER_DST_BIT ||| VK_BUFFER_USAGE_VERTEX_BUFFER_BIT)
      &&& VK_BUFFER_USAGE_INDEX_BUFFER_BIT = 0 ∧
    (∃ size, Call.vmaCreateBuffer
        { sType := VK_STRUCTURE_TYPE_BUFFER_CREATE_INFO, size := size,
          usage := VK_BUFFER_USAGE_TRANSFER_DST_BIT ||| VK_BUFFER_USAGE_VERTEX_BUFFER_BIT,
          sharingMode := VK_SHARING_MODE_EXCLUSIVE }
        { usage := VMA_MEMORY_USAGE_GPU_ONLY, flags := 0 }
        VkResult.VK_SUCCESS indexBuffer indexAlloc ∈ newCalls w w1) ∧
    (∃ commandBuffer stagingIndexBuffer stagingIndexBufferAlloc size,
      Call.memcpy (some (stagingIndexBufferAlloc, 0)) (indices.map uint32Bytes).flatten size
        ∈ newCalls w w1 ∧
      Call.vmaDestroyBuffer stagingIndexBuffer stagingIndexBufferAlloc ∈ newCalls w w1 ∧
      Call.vkCmdCopyBuffer commandBuffer stagingIndexBuffer indexBuffer
        [{ srcOffset := 0, dstOffset := 0, size := size }] ∈ newCalls w w1) := by
  obtain ⟨hvb, -, hib, -, hb, -, ht⟩ := createVertexandIndexBuffersVMA_ok h
  have hnone2 := find?_old_buffer_none w (w.freshHandle + 2) (by omega)
  have hnone6 := find?_old_buffer_none w (w.freshHandle + 6) (by omega)
  rw [newCalls_append _ _ _ ht]
  subst hvb hib
  refine ⟨?_, ?_, by decide, ⟨toUint64 (indices.length * 4), ?_⟩,
    ⟨w.freshHandle + 8, w.freshHandle + 4, w.freshHandle + 5, toUint64 (indices.length * 4),
      ?_, ?_, ?_⟩⟩
  · simp [World.findBuffer, hb, List.find?_append, hnone6, List.find?_cons]
  · simp [World.findBuffer, hb, List.find?_append, hnone2, List.find?_cons]
  · simp
  · simp
  · simp
  · simp

/-- C10 at a concrete call: two vertices of two bytes each and one index, from the empty
state, on a driver whose calls all succeed; buffer 7 is the index buffer. -/
theorem createVertexandIndexBuffersVMA_index_usage_witness :
    createVertexandIndexBuffersVMA okDriver emptyWorld 9 2 [[1, 2], [3, 4]] [5]
      = (Except.ok (3, 7, 4, 8),
          (createVertexandIndexBuffersVMA okDriver emptyWorld 9 2 [[1, 2], [3, 4]] [5]).2) ∧
    (createVertexandIndexBuffersVMA okDriver emptyWorld 9 2 [[1, 2], [3, 4]] [5]).2.bufferBytes 7
      = [5, 0, 0, 0] ∧
    ((createVertexandIndexBuffersVMA okDriver emptyWorld 9 2 [[1, 2], [3, 4]]
        [5]).2.findBuffer 7).map (fun b => b.createInfo.usage)
      = some (VK_BUFFER_USAGE_TRANSFER_DST_BIT ||| VK_BUFFER_USAGE_VERTEX_BUFFER_BIT) :=
  ⟨by decide, by decide,
    (createVertexandIndexBuffersVMA_index_usage okDriver emptyWorld _ 9 2 [[1, 2], [3, 4]] [5]
      3 7 4 8 (by decide)).1⟩

/-- C5, counterexample: a call of `CreateBufferFromData` in which the creation of the
destination buffer fails ends in an error, and the staging buffer 1 and the staging
allocation 2 that the call has created are live after it. -/
theorem CreateBufferFromData_leaks_staging_on_error :
    (CreateBufferFromData secondBufferFailsDriver emptyWorld 9 [7, 9] 2
        VK_BUFFER_USAGE_VERTEX_BUFFER_BIT).1
      = Except.error (Error.runtime_error "Failed to create buffer") ∧
    (newCalls emptyWorld (CreateBufferFromData secondBufferFailsDriver emptyWorld 9 [7, 9] 2
        VK_BUFFER_USAGE_VERTEX_BUFFER_BIT).2).filterMap Call.createdBuffer = [1] ∧
    (newCalls emptyWorld (CreateBufferFromData secondBufferFailsDriver emptyWorld 9 [7, 9] 2
        VK_BUFFER_USAGE_VERTEX_BUFFER_BIT).2).filterMap Call.createdMemory = [2] ∧
    (CreateBufferFromData secondBufferFailsDriver emptyWorld 9 [7, 9] 2
        VK_BUFFER_USAGE_VERTEX_BUFFER_BIT).2.liveBuffers = [1] ∧
    (CreateBufferFromData secondBufferFailsDriver emptyWorld 9 [7, 9] 2
        VK_BUFFER_USAGE_VERTEX_BUFFER_BIT).2.liveMemories = [2] := by
  refine ⟨by decide, by decide, by decide, by decide, by decide⟩

/-- C5, amended: when a call of `CreateBufferFromData`, of `createBufferFromDataVMA` or of
`createVertexandIndexBuffersVMA` completes, the buffers and allocations the call has
created are the staging ones and the ones it returns, no staging buffer and no staging
allocation is live, and what is live is what was live before the call and what the call
returns. -/
theorem staging_released_on_completion (drv : Driver) (w : World) (commandPool : Nat) :
    (∀ (bufferData : List Nat) (bufferSize bufferUsage buffer memory : Nat) (w1 : World),
      CreateBufferFromData drv w commandPool bufferData bufferSize bufferUsage
        = (Except.ok (buffer, memory), w1) →
      ∃ stagingBuffer stagingBufferMemory,
        (newCalls w w1).filterMap Call.createdBuffer = [stagingBuffer, buffer] ∧
        (newCalls w w1).filterMap Call.createdMemory = [stagingBufferMemory, memory] ∧
        stagingBuffer ∉ w1.liveBuffers ∧ stagingBufferMemory ∉ w1.liveMemories ∧
        w1.liveBuffers = w.liveBuffers ++ [buffer] ∧
        w1.liveMemories = w.liveMemories ++ [memory]) ∧
    (∀ (bufferData : List Nat) (bufferSize bufferUsage buffer alloc : Nat) (w1 : World),
      createBufferFromDataVMA drv w commandPool bufferData bufferSize bufferUsage
        = (Except.ok (buffer, alloc), w1) →
      ∃ stagingBuffer stagingBufferAlloc,
        (newCalls w w1).filterMap Call.createdBuffer = [stagingBuffer, buffer] ∧
        (newCalls w w1).filterMap Call.createdMemory = [stagingBufferAlloc, alloc] ∧
        stagingBuffer ∉ w1.liveBuffers ∧ stagingBufferAlloc ∉ w1.liveMemories ∧
        w1.liveBuffers = w.liveBuffers ++ [buffer] ∧
        w1.liveMemories = w.liveMemories ++ [alloc]) ∧
    (∀ (sizeofVertex : Nat) (vertices : List (List Nat)) (indices : List Nat)
      (vertexBuffer indexBuffer vertexAlloc indexAlloc : Nat) (w1 : World),
      createVertexandIndexBuffersVMA drv w commandPool sizeofVertex vertices indices
        = (Except.ok (vertexBuffer, indexBuffer, vertexAlloc, indexAlloc), w1) →
      ∃ stagingVertexBuffer stagingVertexBufferAlloc stagingIndexBuffer stagingIndexBufferAlloc,
        (newCalls w w1).filterMap Call.createdBuffer
          = [stagingVertexBuffer, vertexBuffer, stagingIndexBuffer, indexBuffer] ∧
        (newCalls w w1).filterMap Call.createdMemory
          = [stagingVertexBufferAlloc, vertexAlloc, stagingIndexBufferAlloc, indexAlloc] ∧
        stagingVertexBuffer ∉ w1.liveBuffers ∧ stagingIndexBuffer ∉ w1.liveBuffers ∧
        stagingVertexBufferAlloc ∉ w1.liveMemories ∧
        stagingIndexBufferAlloc ∉ w1.liveMemories ∧
        w1.liveBuffers = w.liveBuffers ++ [vertexBuffer, indexBuffer] ∧
        w1.liveMemories = w.liveMemories ++ [vertexAlloc, indexAlloc]) := by
  have nb := not_live_buffer_of_fresh w
  have nm := not_live_memory_of_fresh w
  refine ⟨?_, ?_, ?_⟩
  · intro bufferData bufferSize bufferUsage buffer memory w1 h
    obtain ⟨rfl, rfl, hb, hm, cs1, cs2, rmap, data, hcb1, hcm1, hcb2, hcm2, ht⟩ :=
      CreateBufferFromData_ok h
    have hlb : w1.liveBuffers = w.liveBuffers ++ [w.freshHandle + 2] := by
      simp [World.liveBuffers, hb]
    simp only [List.append_assoc] at ht
    rw [newCalls_append _ _ _ ht]
    refine ⟨w.freshHandle, w.freshHandle + 1, ?_, ?_, ?_, ?_, hlb, hm⟩
    · simp [List.filterMap_append, hcb1, hcb2, Call.createdBuffer]
    · simp [List.filterMap_append, hcm1, hcm2, Call.createdMemory]
    · rw [hlb, List.mem_append, List.mem_singleton]
      exact fun hc => hc.elim (nb _ (Nat.le_refl _)) (by omega)
    · rw [hm, List.mem_append, List.mem_singleton]
      exact fun hc => hc.elim (nm _ (by omega)) (by omega)
  · intro bufferData bufferSize bufferUsage buffer alloc w1 h
    obtain ⟨rfl, rfl, hb, hm, ht⟩ := createBufferFromDataVMA_ok h
    have hlb : w1.liveBuffers = w.liveBuffers ++ [w.freshHandle + 2] := by
      simp [World.liveBuffers, hb]
    rw [newCalls_append _ _ _ ht]
    refine ⟨w.freshHandle, w.freshHandle + 1, ?_, ?_, ?_, ?_, hlb, hm⟩
    · simp [Call.createdBuffer]
    · simp [Call.createdMemory]
    · rw [hlb, List.mem_append, List.mem_singleton]
      exact fun hc => hc.elim (nb _ (Nat.le_refl _)) (by omega)
    · rw [hm, List.mem_append, List.mem_singleton]
      exact fun hc => hc.elim (nm _ (by omega)) (by omega)
  · intro sizeofVertex vertices indices vertexBuffer indexBuffer vertexAlloc indexAlloc w1 h
    obtain ⟨rfl, rfl, rfl, rfl, hb, hm, ht⟩ := createVertexandIndexBuffersVMA_ok h
    have hlb : w1.liveBuffers = w.liveBuffers ++ [w.freshHandle + 2, w.freshHandle + 6] := by
      simp [World.liveBuffers, hb]
    rw [newCalls_append _ _ _ ht]
    refine ⟨w.freshHandle, w.freshHandle + 1, w.freshHandle + 4, w.freshHandle + 5,
      ?_, ?_, ?_, ?_, ?_, ?_, hlb, hm⟩
    · simp [Call.createdBuffer]
    · simp [Call.createdMemory]
    · rw [hlb, List.mem_append]
      exact fun hc => hc.elim (nb _ (Nat.le_refl _)) (by simp)
    · rw [hlb, List.mem_append]
      exact fun hc => hc.elim (nb _ (by omega)) (by simp)
    · rw [hm, List.mem_append]
      exact fun hc => hc.elim (nm _ (by omega)) (by simp)
    · rw [hm, List.mem_append]
      exact fun hc => hc.elim (nm _ (by omega)) (by simp)

/-- C5, amended, at a concrete call of `CreateBufferFromData`: from the empty state, on a
driver whose calls all succeed, the call returns buffer 3 on allocation 4, and these are
all that is live afterwards. -/
theorem staging_released_on_completion_witness :
    CreateBufferFromData okDriver emptyWorld 9 [7, 9] 2 VK_BUFFER_USAGE_VERTEX_BUFFER_BIT
      = (Except.ok (3, 4),
          (CreateBufferFromData okDriver emptyWorld 9 [7, 9] 2
            VK_BUFFER_USAGE_VERTEX_BUFFER_BIT).2) ∧
    ∃ stagingBuffer stagingBufferMemory,
      (newCalls emptyWorld (CreateBufferFromData okDriver emptyWorld 9 [7, 9] 2
          VK_BUFFER_USAGE_VERTEX_BUFFER_BIT).2).filterMap Call.createdBuffer
        = [stagingBuffer, 3] ∧
      (newCalls emptyWorld (CreateBufferFromData okDriver emptyWorld 9 [7, 9] 2
          VK_BUFFER_USAGE_VERTEX_BUFFER_BIT).2).filterMap Call.createdMemory
        = [stagingBufferMemory, 4] ∧
      stagingBuffer ∉ (CreateBufferFromData okDriver emptyWorld 9 [7, 9] 2
          VK_BUFFER_USAGE_VERTEX_BUFFER_BIT).2.liveBuffers ∧
      stagingBufferMemory ∉ (CreateBufferFromData okDriver emptyWorld 9 [7, 9] 2
          VK_BUFFER_USAGE_VERTEX_BUFFER_BIT).2.liveMemories ∧
      (CreateBufferFromData okDriver emptyWorld 9 [7, 9] 2
          VK_BUFFER_USAGE_VERTEX_BUFFER_BIT).2.liveBuffers = emptyWorld.liveBuffers ++ [3] ∧
      (CreateBufferFromData okDriver emptyWorld 9 [7, 9] 2
          VK_BUFFER_USAGE_VERTEX_BUFFER_BIT).2.liveMemories = emptyWorld.liveMemories ++ [4] :=
  ⟨by decide,
    (staging_released_on_completion okDriver emptyWorld 9).1 [7, 9] 2
      VK_BUFFER_USAGE_VERTEX_BUFFER_BIT 3 4 _ (by decide)⟩

end BufferUtils
